import Mathlib

/-!
Verification development for the MCP Google Ads gateway (src/app.py).

The Python module is shallowly embedded below.  JSON values are modelled by
the inductive type J; Python dictionaries appear as association lists with
unique keys, Python None as J.null, and Python truthiness as J.truthy.
Machine-level details that the claims do not touch (logging, CORS, the
Google Ads wire protocol) are either omitted or abstracted into explicit
environment records, as noted next to each definition.  Float similarity
scores and sleep durations are modelled by rationals.
-/

/-- J models a JSON value (the payloads handled by the gateway).  Python
None is J.null; Python dicts are J.obj association lists (keys unique,
insertion order kept). -/
inductive J where
  | null
  | bool (b : Bool)
  | num (n : Int)
  | str (s : String)
  | arr (elems : List J)
  | obj (fields : List (String × J))

/-- Python truthiness of a JSON value (bool(x)): None, False, 0, empty
string, empty list and empty dict are falsy. -/
def J.truthy : J → Bool
  | .null => false
  | .bool b => b
  | .num n => n != 0
  | .str s => s ≠ ""
  | .arr l => !l.isEmpty
  | .obj l => !l.isEmpty

/-- Lookup of a key in a JSON object (first binding; None if the value is
not an object or the key is absent). -/
def J.lookup : J → String → Option J
  | .obj fields, k => fields.lookup k
  | _, _ => none

/-- Python membership test for a dict key. -/
def J.hasKey (j : J) (k : String) : Bool :=
  match j with
  | .obj fields => fields.any (fun p => p.1 == k)
  | _ => false

/-- Python dict.get(k): None when the key is absent. -/
def dictGet (j : J) (k : String) : J :=
  (j.lookup k).getD J.null

/-- Python expression a or b on JSON values: a when truthy, else b. -/
def pyOrJ (a b : J) : J :=
  if a.truthy then a else b

/-- Python str() of the scalar JSON values.  The repr of lists and dicts is
not needed by any theorem and is modelled by the empty string. -/
def pyStr : J → String
  | .null => "None"
  | .bool true => "True"
  | .bool false => "False"
  | .num n => toString n
  | .str s => s
  | .arr _ => ""
  | .obj _ => ""

/-- ASCII lowercasing of one character (Python str.lower / casefold is
Unicode-aware; every string the module compares is ASCII). -/
def charLower (c : Char) : Char :=
  if 65 ≤ c.toNat ∧ c.toNat ≤ 90 then Char.ofNat (c.toNat + 32) else c

/-- Python str.lower for ASCII strings. -/
def pyLower (s : String) : String :=
  (s.toList.map charLower).asString

/-- Python whitespace test used by str.strip (ASCII whitespace). -/
def isPyWs (c : Char) : Bool :=
  c == ' ' || c == '\t' || c == '\n' || c == '\r' || c == '\x0b' || c == '\x0c'

/-- Python str.strip(): remove leading and trailing whitespace. -/
def pyStrip (s : String) : String :=
  (((s.toList.dropWhile isPyWs).reverse.dropWhile isPyWs).reverse).asString

/-- Python s.replace("-", ""): drop every dash (single-character pattern,
so replacement is the same as filtering). -/
def stripDashes (s : String) : String :=
  (s.toList.filter (fun c => c ≠ '-')).asString

/-- Lexicographic string comparison on code points, as Python compares
strings.  Defined directly so that it evaluates in the kernel. -/
def charListLe : List Char → List Char → Bool
  | [], _ => true
  | _ :: _, [] => false
  | a :: as, b :: bs =>
    if a.toNat < b.toNat then true
    else if b.toNat < a.toNat then false
    else charListLe as bs

/-- Python string less-or-equal (lexicographic on code points). -/
def pyStrLe (a b : String) : Bool :=
  charListLe a.toList b.toList

/-- Python string strict comparison. -/
def pyStrLt (a b : String) : Bool :=
  pyStrLe a b && a ≠ b

/-- Prefix test on strings (Python str.startswith). -/
def listIsPre : List Char → List Char → Bool
  | [], _ => true
  | _ :: _, [] => false
  | a :: as, b :: bs => a == b && listIsPre as bs

/-- Python str.startswith. -/
def pyStartsWith (s pre : String) : Bool :=
  listIsPre pre.toList s.toList

/-- Python auth_header.split(" ", 1)[1]: the text after the first space. -/
def afterFirstSpace (s : String) : String :=
  ((s.toList.dropWhile (fun c => c ≠ ' ')).drop 1).asString

example : pyLower "Bearer X" = "bearer x" := rfl
example : pyStartsWith "bearer abc" "bearer " = true := rfl
example : afterFirstSpace "Bearer  tok" = " tok" := rfl
example : pyStrip "  a b\t" = "a b" := rfl
example : pyStrLe "2024-11-05" "2025-06-18" = true := rfl
example : pyStrLe "2024-11-05" "2023-01-01" = false := rfl
example : stripDashes "123-456" = "123456" := rfl

/-! Protocol version constants and negotiation (src/app.py lines 25-44 and
170-185; the later definitions of the two helpers shadow the earlier
identical ones, so the embedding follows lines 170-185). -/

def APP_NAME : String := "mcp-google-ads"

def APP_VER : String := "0.1.0"

def MCP_PROTO_DEFAULT : String := "2024-11-05"

def SUPPORTED_MCP_VERSIONS : List String := ["2024-11-05"]

/-- Python SUPPORTED_MCP_VERSIONS[-1] (the list is statically non-empty). -/
def latestSupportedProtocol (supported : List String) : String :=
  supported.getLastD ""

/-- Leap year test matching Python datetime. -/
def isLeapYear (y : Nat) : Bool :=
  (y % 4 == 0 && y % 100 != 0) || y % 400 == 0

/-- Days in a month, matching Python datetime. -/
def daysInMonth (y m : Nat) : Nat :=
  if m = 2 then (if isLeapYear y then 29 else 28)
  else if m = 4 ∨ m = 6 ∨ m = 9 ∨ m = 11 then 30
  else 31

/-- Numeric value of an ASCII digit. -/
def digitVal (c : Char) : Nat := c.toNat - 48

/-- Shape test: exactly the ten-character pattern DDDD-DD-DD. -/
def isoShape (s : String) : Bool :=
  match s.toList with
  | [a, b, c, d, e, f, g, h, i, j] =>
    a.isDigit && b.isDigit && c.isDigit && d.isDigit && e == '-' &&
    f.isDigit && g.isDigit && h == '-' && i.isDigit && j.isDigit
  | _ => false

/-- Embedding of datetime.date.fromisoformat succeeding: the string has the
YYYY-MM-DD shape and denotes a valid calendar date (year 1-9999).  Python
raises ValueError otherwise; _validate_protocol_version_string converts any
exception to ValueError (src/app.py lines 170-176). -/
def isValidIsoDate (s : String) : Bool :=
  isoShape s &&
  (match s.toList with
   | [a, b, c, d, _, f, g, _, i, j] =>
     let y := ((digitVal a * 10 + digitVal b) * 10 + digitVal c) * 10 + digitVal d
     let m := digitVal f * 10 + digitVal g
     let dd := digitVal i * 10 + digitVal j
     1 ≤ y && 1 ≤ m && m ≤ 12 && 1 ≤ dd && dd ≤ daysInMonth y m
   | _ => false)

/-- Embedding of _negotiate_protocol_version (src/app.py lines 178-185):
pick the first element of the reversed supported list that is ≤ the
requested version; the newest supported version when nothing was
requested. -/
def negotiateProtocolVersion (supported : List String) (requested : Option String) :
    Option String :=
  match requested with
  | none => some (latestSupportedProtocol supported)
  | some req => supported.reverse.find? (fun v => pyStrLe v req)

example : negotiateProtocolVersion SUPPORTED_MCP_VERSIONS (some "2025-06-18") =
    some "2024-11-05" := rfl
example : negotiateProtocolVersion SUPPORTED_MCP_VERSIONS (some "2023-01-01") = none := rfl
example : negotiateProtocolVersion SUPPORTED_MCP_VERSIONS none = some "2024-11-05" := rfl
example : isValidIsoDate "2024-11-05" = true := rfl
example : isValidIsoDate "not-a-date" = false := rfl
example : isValidIsoDate "2024-02-30" = false := rfl
example : isValidIsoDate "2024-02-29" = true := rfl

/-! Client name to customer id resolution (src/app.py lines 219-321). -/

/-- Embedding of _norm_key: casefold, then keep only [a-z0-9]. -/
def normKey (s : String) : String :=
  ((s.toList.map charLower).filter
    (fun c => (97 ≤ c.toNat && c.toNat ≤ 122) || c.isDigit)).asString

example : normKey "Acme, Inc." = "acmeinc" := rfl

/-- One entry of the process-wide account cache _ACCOUNT_CACHE:
{"id": ..., "raw": ...}. -/
structure CacheEntry where
  id : String
  raw : String

/-- The account cache is a Python dict keyed by normalized display name. -/
abbrev Cache := List (String × CacheEntry)

/-- Python dict assignment d[k] = v: replace in place if the key exists,
else append (insertion order preserved). -/
def upsert (m : Cache) (k : String) (v : CacheEntry) : Cache :=
  if m.any (fun p => p.1 == k) then
    m.map (fun p => if p.1 == k then (k, v) else p)
  else m ++ [(k, v)]

/-- One upstream customer_client row, after the field plumbing of
src/app.py lines 264-265: name is descriptive_name or "" and cid is
str(client_customer or id or ""). -/
structure AdsRow where
  name : String
  cid : String

/-- The upstream row iterator of _refresh_account_cache: each element is a
row or the exception that iteration (or client construction, or the search
call) raised at that point. -/
def collectRows : List (Except String AdsRow) → Except String (List AdsRow)
  | [] => .ok []
  | .error e :: _ => .error e
  | .ok r :: rest => (collectRows rest).map (fun rs => r :: rs)

/-- The local dict built by the row loop of _refresh_account_cache
(src/app.py lines 262-267). -/
def buildCacheLocal (rows : List AdsRow) : Cache :=
  rows.foldl
    (fun acc r =>
      if r.cid ≠ "" then upsert acc (normKey r.name) ⟨stripDashes r.cid, r.name⟩
      else acc)
    []

/-- Environment of the resolver: the static alias table _STATIC_LOOKUP, the
LOGIN_CUSTOMER_ID env value, the upstream hierarchy rows the refresh query
would yield, and the difflib SequenceMatcher similarity (an external
library function, modelled as a rational-valued score). -/
structure ResolveEnv where
  staticLookup : List (String × String)
  loginCustomerId : String
  upstreamRows : List (Except String AdsRow)
  ratio : String → String → Rat

/-- Embedding of _refresh_account_cache (src/app.py lines 244-272): on a
falsy root it returns at once; otherwise it reads the whole row set into a
local dict and only then clears and repopulates the cache; any exception is
caught, logged and swallowed, leaving the cache untouched. -/
def refreshAccountCache (env : ResolveEnv) (rootMcc : Option String) (cache : Cache) :
    Cache :=
  match rootMcc with
  | none => cache
  | some r =>
    if r = "" then cache
    else
      match collectRows env.upstreamRows with
      | .error _ => cache
      | .ok rows => buildCacheLocal rows

/-- Embedding of difflib.get_close_matches(word, candidates, n=1,
cutoff): keep the candidates whose similarity reaches the cutoff and return
the maximum of the (score, candidate) pairs, exactly as heapq.nlargest
compares the tuples difflib builds (ties in score go to the greater
candidate string). -/
def getCloseMatch1 (ratio : String → String → Rat) (cutoff : Rat) (word : String)
    (cands : List String) : Option String :=
  let qual := cands.filter (fun c => cutoff ≤ ratio c word)
  qual.foldl
    (fun best c =>
      match best with
      | none => some c
      | some b =>
        if ratio b word < ratio c word ∨
            (ratio b word = ratio c word ∧ pyStrLt b c = true) then some c
        else some b)
    none

/-- Python expression a or b where a is str-or-None and b is str: the
result is None exactly when both are falsy is not possible here (b is
always a string), so the result is a string; truthiness of the result is
its non-emptiness. -/
def pyOrStr (a : Option String) (b : String) : String :=
  match a with
  | some s => if s ≠ "" then s else b
  | none => b

/-- Python expression a or b on two optional strings (used for
_STATIC_LOOKUP.get(m) or (_ACCOUNT_CACHE.get(m) or {}).get("id")). -/
def pyOrOptStr (a b : Option String) : Option String :=
  match a with
  | some s => if s ≠ "" then some s else b
  | none => b

/-- Embedding of _resolve_customer_id (src/app.py lines 274-303).  The
process-wide cache is threaded explicitly; the returned pair is (resolved
id or None, cache after a possible refresh). -/
def resolveCustomerId (env : ResolveEnv) (nameOrId : J) (rootMcc : Option String)
    (cache : Cache) : Option String × Cache :=
  if !nameOrId.truthy then (none, cache)
  else
    let s := pyStrip (pyStr nameOrId)
    let digits := (s.toList.filter Char.isDigit).asString
    if 8 ≤ digits.length ∧ digits.length ≤ 20 then (some digits, cache)
    else
      let key := normKey s
      match env.staticLookup.lookup key with
      | some v => (some v, cache)
      | none =>
        let root : String := pyOrStr rootMcc env.loginCustomerId
        let cache1 :=
          if cache.isEmpty ∧ root ≠ "" then
            refreshAccountCache env (some root) cache
          else cache
        match cache1.lookup key with
        | some e => (some e.id, cache1)
        | none =>
          let cands := (env.staticLookup.map Prod.fst ++ cache1.map Prod.fst).eraseDups
          match getCloseMatch1 env.ratio (mkRat 4 5) key cands with
          | some m =>
            (pyOrOptStr (env.staticLookup.lookup m) ((cache1.lookup m).map CacheEntry.id),
             cache1)
          | none => (none, cache1)

/-- Python exceptions the dispatcher distinguishes: ValueError versus
everything else.  For the generic case, msg is str(e) and asJson is the
result of json.loads(str(e)) when that parses (the parse itself is not
embedded; callers supply the outcome). -/
inductive PyExc where
  | valueError (msg : String)
  | other (msg : String) (asJson : Option J)

/-- Embedding of _ensure_customer_id_arg (src/app.py lines 305-321),
returning the resolved id (the mutation of args is not observed by any
claim) or the ValueError it raises. -/
def ensureCustomerIdArg (env : ResolveEnv) (args : J) (rootMcc : Option String)
    (cache : Cache) : Except PyExc String × Cache :=
  let cid := dictGet args "customer_id"
  let cname := pyOrJ (dictGet args "customer") (dictGet args "customer_name")
  if cid.truthy then (.ok (stripDashes (pyStr cid)), cache)
  else if cname.truthy then
    let res := resolveCustomerId env (.str (pyStr cname)) rootMcc cache
    match res.1 with
    | some r =>
      if r = "" then
        (.error (.valueError ("Could not resolve client \x27" ++ pyStr cname ++
          "\x27 to a Google Ads customer ID")), res.2)
      else (.ok r, res.2)
    | none =>
      (.error (.valueError ("Could not resolve client \x27" ++ pyStr cname ++
        "\x27 to a Google Ads customer ID")), res.2)
  else
    (.error (.valueError
      "Missing required param: customer_id (or provide \x27customer\x27/\x27customer_name\x27)"),
     cache)

example :
    (resolveCustomerId ⟨[], "", [], fun _ _ => 0⟩ (.str "123-456-78") none []).1 =
      some "12345678" := rfl
example :
    (resolveCustomerId ⟨[("acme", "5550001111")], "", [], fun _ _ => 0⟩
      (.str "Acme!") none []).1 = some "5550001111" := rfl
example :
    (resolveCustomerId ⟨[], "", [], fun _ _ => 0⟩ (.str "ghost") none []).1 = none := rfl

/-! Resilient upstream invocation (src/app.py lines 339-360). -/

/-- The static transient-status set TRANSIENTS. -/
def TRANSIENTS : List String :=
  ["UNAVAILABLE", "DEADLINE_EXCEEDED", "INTERNAL", "RESOURCE_EXHAUSTED", "ABORTED"]

/-- What one attempt of the wrapped callable does: return a value, or raise
a GoogleAdsException carrying a status name, an optional request id and a
list of (message, error-code-class-name) sub-errors. -/
inductive AdsOutcome (α : Type) where
  | success (v : α)
  | failure (status : String) (requestId : Option String) (errors : List (String × String))

/-- The details dict _ads_call serializes into the RuntimeError it raises
(src/app.py lines 351-360); a PERMISSION_DENIED status gains a hint. -/
def adsFailureDetails (status : String) (requestId : Option String)
    (errors : List (String × String)) : J :=
  .obj
    ([("status", .str status),
      ("request_id", match requestId with | some r => .str r | none => .null),
      ("errors", .arr (errors.map (fun e =>
        .obj [("message", .str e.1), ("code", .str e.2)])))] ++
     (if status = "PERMISSION_DENIED" then
        [("hint", .str ("Set login_customer_id to your MCC (e.g. 9000159936) " ++
          "or configure GOOGLE_ADS_LOGIN_CUSTOMER_ID on the server."))]
      else []))

/-- The retry loop of _ads_call, one recursive step per iteration of
for i in range(1, attempts+1).  outcomes i is what fn() does on attempt i
and jitter i models random.random() for that attempt.  The result is None
(Python falls off the loop) only when attempts < 1; otherwise it is the
returned value or the raised details, paired with the list of backoff sleep
durations in order. -/
def adsCallGo {α : Type} (outcomes : Nat → AdsOutcome α) (jitter : Nat → Rat)
    (attempts : Nat) : Nat → Nat → Option (Except J α) × List Rat
  | _, 0 => (none, [])
  | i, fuel + 1 =>
    match outcomes i with
    | .success v => (some (.ok v), [])
    | .failure status rid errs =>
      if status ∈ TRANSIENTS ∧ i < attempts then
        let rest := adsCallGo outcomes jitter attempts (i + 1) fuel
        (rest.1, (min ((2 : Rat) ^ i) 20 + jitter i) :: rest.2)
      else (some (.error (adsFailureDetails status rid errs)), [])

/-- Embedding of _ads_call (src/app.py lines 341-360) with its sleeps made
observable. -/
def adsCall {α : Type} (outcomes : Nat → AdsOutcome α) (jitter : Nat → Rat)
    (attempts : Nat := 5) : Option (Except J α) × List Rat :=
  adsCallGo outcomes jitter attempts 1 attempts

example :
    (adsCall (fun i => if i < 3 then .failure "UNAVAILABLE" none [] else .success (42 : Nat))
      (fun _ => 0)).1 = some (.ok 42) := rfl
example :
    (adsCall (fun i => if i < 3 then .failure "UNAVAILABLE" none [] else .success (42 : Nat))
      (fun _ => 0)).2 = [2, 4] := by norm_num [adsCall, adsCallGo, TRANSIENTS]
example :
    (adsCall (fun _ => .failure "PERMISSION_DENIED" none [] (α := Nat)) (fun _ => 0)).2 =
      [] := rfl

/-! The RPC dispatcher (src/app.py lines 1059-1342). -/

/-- Names of the tools exposed without auth (PUBLIC_TOOLS, src/app.py lines
646-652; the source comment notes everything is public while testing). -/
def PUBLIC_TOOLS : List String :=
  ["ping", "noop_ok", "debug_login_header", "echo_short",
   "list_resources", "resolve_customer",
   "fetch_account_tree", "fetch_metrics", "fetch_campaign_summary",
   "list_recommendations", "fetch_search_terms", "fetch_change_history",
   "fetch_budget_pacing"]

/-- Names of the tools whose bodies call the Google Ads API; their bodies
are external collaborators and are supplied through Ctx.adsTool. -/
def ADS_TOOL_NAMES : List String :=
  ["fetch_account_tree", "fetch_metrics", "fetch_campaign_summary",
   "list_recommendations", "fetch_search_terms", "fetch_change_history",
   "fetch_budget_pacing", "list_resources"]

/-- Per-process and per-request context of the dispatcher: the shared
secret MCP_SHARED_KEY, the request headers the handler reads, the static
TOOLS catalog (its JSON schema entries are plain data no claim inspects,
so they are carried as context), the resolver environment, the behavior of
the Google-Ads-backed tool bodies, and the timestamp tool_ping reads. -/
structure Ctx where
  sharedKey : String
  authorization : Option String
  xMcpKey : Option String
  reqProtoHeader : Option String
  tools : List J
  resolveEnv : ResolveEnv
  adsTool : String → J → Cache → Except PyExc J × Cache
  nowIso : String

/-- Bearer check of _is_authed and of the tools/call gate (src/app.py lines
1082-1083 and 1153-1155): the Authorization header starts with a bearer
scheme and the token after the first space equals the key exactly. -/
def bearerOk (ctx : Ctx) : Bool :=
  let authHdr := ctx.authorization.getD ""
  pyStartsWith (pyLower authHdr) "bearer " &&
    pyStrip (afterFirstSpace authHdr) == ctx.sharedKey

/-- Secondary header check: X-MCP-Key equals the key exactly (src/app.py
lines 1084 and 1157). -/
def xhdrOk (ctx : Ctx) : Bool :=
  ctx.xMcpKey.getD "" == ctx.sharedKey

/-- Embedding of _is_authed (src/app.py lines 1078-1085). -/
def isAuthed (ctx : Ctx) : Bool :=
  if ctx.sharedKey = "" then true else bearerOk ctx || xhdrOk ctx

/-- The tool list filtered by authorization, as built at src/app.py lines
1209-1210 and 1230-1231: unauthenticated callers see only entries whose
name is in PUBLIC_TOOLS. -/
def visibleTools (ctx : Ctx) : List J :=
  ctx.tools.filter (fun t =>
    isAuthed ctx ||
      (match t.lookup "name" with
       | some (.str n) => PUBLIC_TOOLS.contains n
       | _ => false))

/-- Embedding of _build_jsonrpc_error (src/app.py lines 1122-1126). -/
def buildJsonrpcError (idJ : J) (code : Int) (message : String) (data : Option J) : J :=
  .obj
    [("jsonrpc", .str "2.0"), ("id", idJ),
     ("error", .obj
       ([("code", .num code), ("message", .str message)] ++
        (match data with | some d => [("data", d)] | none => [])))]

/-- Embedding of mcp_ok_json (src/app.py lines 162-164). -/
def mcpOkJson (data : J) : J :=
  .obj [("content", .arr [.obj [("type", .str "json"), ("json", data)]])]

/-- Embedding of mcp_err (src/app.py lines 166-168). -/
def mcpErr (message : String) (data : J) : J :=
  .obj [("code", .num (-32000)), ("message", .str message),
        ("data", if data.truthy then data else .obj [])]

/-- The success closure of _handle_single_rpc (lines 1169-1172): no body
for a notification, else a result envelope. -/
def successR (isNotif : Bool) (idJ : J) (result : J) : Option J :=
  if isNotif then none
  else some (.obj [("jsonrpc", .str "2.0"), ("id", idJ), ("result", result)])

/-- The error closure of _handle_single_rpc (lines 1174-1177). -/
def errorR (isNotif : Bool) (idJ : J) (code : Int) (message : String)
    (data : Option J) : Option J :=
  if isNotif then none else some (buildJsonrpcError idJ code message data)

/-- Mutable values the handler writes: the response-header dict entries,
request.state.mcp_protocol_version, the status dict (which no code path
ever writes), and the process-wide account cache. -/
structure DState where
  mcpHeader : Option String
  wwwAuth : Option String
  stateProto : Option String
  statusCode : Nat
  cache : Cache

/-- Embedding of tool_ping (src/app.py lines 656-657). -/
def toolPing (ctx : Ctx) : J :=
  .obj [("ok", .bool true), ("time", .str (ctx.nowIso ++ "Z"))]

/-- Embedding of tool_debug_login_header (src/app.py lines 659-660). -/
def toolDebugLoginHeader (ctx : Ctx) : J :=
  .obj [("env_LOGIN_CUSTOMER_ID", .str ctx.resolveEnv.loginCustomerId)]

/-- Embedding of tool_echo_short (src/app.py lines 662-666).  A truthy
non-string msg would raise AttributeError on .strip(); no claim exercises
that corner and it is reported as a generic exception. -/
def toolEchoShort (args : J) : Except PyExc J :=
  match pyOrJ (dictGet args "msg") (.str "") with
  | .str s =>
    let m := pyStrip s
    if m = "" then .error (.valueError "msg required")
    else .ok (.obj [("msg", .str m)])
  | _ => .error (.other "AttributeError" none)

/-- Embedding of tool_noop_ok (src/app.py lines 668-669). -/
def toolNoopOk : J := .obj [("ok", .bool true)]

/-- The login_customer_id computation shared by the tool bodies
(for example src/app.py line 1054):
(args.get("login_customer_id") or LOGIN_CUSTOMER_ID or "").replace("-", "")
or None.  A truthy non-string argument would crash .replace; modelled via
pyStr as elsewhere. -/
def loginArg (ctx : Ctx) (args : J) : Option String :=
  let base := pyStr (pyOrJ (dictGet args "login_customer_id")
    (pyOrJ (.str ctx.resolveEnv.loginCustomerId) (.str "")))
  let r := stripDashes base
  if r = "" then none else some r

/-- Embedding of tool_resolve_customer (src/app.py lines 1053-1057):
args["customer"] raises KeyError when absent; otherwise the resolver runs
and the result dict carries the possibly-null resolved id. -/
def toolResolveCustomer (ctx : Ctx) (args : J) (cache : Cache) :
    Except PyExc J × Cache :=
  let login := loginArg ctx args
  match args.lookup "customer" with
  | none => (.error (.other "\x27customer\x27" none), cache)
  | some target =>
    let res := resolveCustomerId ctx.resolveEnv target login cache
    (.ok (.obj
      [("input", target),
       ("resolved_customer_id",
        match res.1 with | some r => .str r | none => .null)]), res.2)

/-- The TOOL_IMPLS dict of the tools/call block (src/app.py lines
1240-1255): implementation and title per tool name.  The eight
Google-Ads-backed bodies come from the context; the debug tools and
resolve_customer are embedded above. -/
def toolImpls (ctx : Ctx) (name : String) :
    Option ((J → Cache → Except PyExc J × Cache) × String) :=
  if name = "fetch_account_tree" then some (ctx.adsTool name, "Account tree")
  else if name = "fetch_metrics" then some (ctx.adsTool name, "Metrics")
  else if name = "fetch_campaign_summary" then some (ctx.adsTool name, "Campaign summary")
  else if name = "list_recommendations" then some (ctx.adsTool name, "Recommendations")
  else if name = "fetch_search_terms" then some (ctx.adsTool name, "Search terms")
  else if name = "fetch_change_history" then some (ctx.adsTool name, "Change history")
  else if name = "fetch_budget_pacing" then some (ctx.adsTool name, "Budget pacing")
  else if name = "list_resources" then some (ctx.adsTool name, "Resources")
  else if name = "resolve_customer" then
    some (fun a c => toolResolveCustomer ctx a c, "Resolved customer")
  else if name = "ping" then some (fun _ c => (.ok (toolPing ctx), c), "pong")
  else if name = "debug_login_header" then
    some (fun _ c => (.ok (toolDebugLoginHeader ctx), c), "Debug login header")
  else if name = "echo_short" then some (fun a c => (toolEchoShort a, c), "echo")
  else if name = "noop_ok" then some (fun _ c => (.ok toolNoopOk, c), "ok")
  else none

/-- Python (x or "").lower(): lowercase a string, AttributeError on a
truthy non-string (uncaught, so it propagates to the endpoint). -/
def asLowerStr (v : J) : Except String String :=
  match v with
  | .str s => .ok (pyLower s)
  | _ => .error "AttributeError: lower"

/-- The auth gate of _handle_single_rpc (src/app.py lines 1148-1167): only
a tools/call of a non-public tool while a shared key is configured is
checked; a failed check records the WWW-Authenticate header and yields
Unauthorized (or nothing for a notification).  The outer some means the
gate produced a return value. -/
def authGate (ctx : Ctx) (publicTools : List String) (payload : J) (isNotif : Bool)
    (idJ : J) (method : String) (st : DState) :
    Except String (Option (Option J) × DState) :=
  if ctx.sharedKey ≠ "" ∧ method = "tools/call" then
    match pyOrJ (dictGet payload "params") (.obj []) with
    | .obj pf =>
      match asLowerStr (pyOrJ ((J.obj pf).lookup "name" |>.getD .null) (.str "")) with
      | .error e => .error e
      | .ok toolName =>
        if publicTools.contains toolName then .ok (none, st)
        else if bearerOk ctx || xhdrOk ctx then .ok (none, st)
        else
          let st1 := { st with wwwAuth := some "Bearer realm=\x22mcp-google-ads\x22" }
          if isNotif then .ok (some none, st1)
          else .ok (some (some (buildJsonrpcError idJ (-32001) "Unauthorized" none)), st1)
    | _ => .error "AttributeError: get"
  else .ok (none, st)

/-- The raw_proto chain of the initialize block (src/app.py lines
1181-1186): params protocolVersion, else the request protocol header (read
twice in the source under its two spellings, which a case-insensitive
header store makes identical), else None. -/
def initRawProto (ctx : Ctx) (pf : List (String × J)) : J :=
  let hdrJ : J := match ctx.reqProtoHeader with | some h => .str h | none => .null
  pyOrJ (((J.obj pf).lookup "protocolVersion").getD J.null)
    (pyOrJ hdrJ (pyOrJ hdrJ .null))

/-- The validation step of the initialize block (src/app.py lines
1189-1195): some requested on success (None when raw_proto is falsy), and
none when _validate_protocol_version_string raises ValueError (a truthy
non-string raw value raises TypeError inside the validator, which its
except clause also turns into ValueError). -/
def initRequested (ctx : Ctx) (pf : List (String × J)) : Option (Option String) :=
  if (initRawProto ctx pf).truthy then
    match initRawProto ctx pf with
    | .str v => if isValidIsoDate v then some (some v) else none
    | _ => none
  else some none

/-- The initialize block of _handle_single_rpc (src/app.py lines
1180-1222). -/
def handleInitialize (ctx : Ctx) (payload : J) (isNotif : Bool) (idJ : J)
    (st : DState) : Except String (Option J × DState) :=
  match pyOrJ (dictGet payload "params") (.obj []) with
  | .obj pf =>
    let latest := latestSupportedProtocol SUPPORTED_MCP_VERSIONS
    let supportedJ : J := .arr (SUPPORTED_MCP_VERSIONS.map J.str)
    match initRequested ctx pf with
    | none =>
      .ok (errorR isNotif idJ (-32602) "Invalid protocolVersion format"
        (some (.obj [("supportedVersions", supportedJ)])),
       { st with mcpHeader := some latest, stateProto := some latest })
    | some requested =>
      match negotiateProtocolVersion SUPPORTED_MCP_VERSIONS requested with
      | none =>
        .ok (errorR isNotif idJ (-32602) "Unsupported protocolVersion"
          (some (.obj [("supportedVersions", supportedJ)])),
          { st with mcpHeader := some latest, stateProto := some latest })
      | some negotiated =>
        let st1 := { st with mcpHeader := some negotiated, stateProto := some negotiated }
        .ok (successR isNotif idJ (.obj
          [("protocolVersion", .str negotiated),
           ("capabilities", .obj [("tools", .obj [("listChanged", .bool true)])]),
           ("serverInfo", .obj [("name", .str APP_NAME), ("version", .str APP_VER)]),
           ("tools", .arr (visibleTools ctx))]), st1)
  | _ => .error "AttributeError: get"

/-- The tools/call block of _handle_single_rpc (src/app.py lines
1235-1283): unknown tool is MethodNotFound, a ValueError becomes
InvalidParams, any other exception becomes the -32000 tool-failure
envelope built without the notification check. -/
def handleToolsCall (ctx : Ctx) (payload : J) (isNotif : Bool) (idJ : J)
    (st : DState) : Except String (Option J × DState) :=
  match pyOrJ (dictGet payload "params") (.obj []) with
  | .obj pf =>
    let name := ((J.obj pf).lookup "name").getD .null
    let args := pyOrJ (((J.obj pf).lookup "arguments").getD .null) (.obj [])
    let impl := match name with
      | .str n => toolImpls ctx n
      | _ => none
    match impl with
    | none => .ok (errorR isNotif idJ (-32601) ("Unknown tool: " ++ pyStr name) none, st)
    | some (func, _title) =>
      match func args st.cache with
      | (.ok data, c1) =>
        .ok (successR isNotif idJ (mcpOkJson data), { st with cache := c1 })
      | (.error (.valueError m), c1) =>
        .ok (errorR isNotif idJ (-32602) ("Invalid params: " ++ m) none,
          { st with cache := c1 })
      | (.error (.other m asJson), c1) =>
        let data := asJson.getD (.obj [("detail", .str m)])
        .ok (some (.obj
          [("jsonrpc", .str "2.0"), ("id", idJ),
           ("error", mcpErr "Google Ads API error" data)]), { st with cache := c1 })
  | _ => .error "AttributeError: get"

/-- Method routing of _handle_single_rpc after the auth gate (src/app.py
lines 1180-1286). -/
def routeMethod (ctx : Ctx) (payload : J) (isNotif : Bool) (idJ : J)
    (method : String) (st : DState) : Except String (Option J × DState) :=
  if method = "initialize" then handleInitialize ctx payload isNotif idJ st
  else if method = "initialized" ∨ method = "notifications/initialized" then
    .ok (some (.obj
      [("jsonrpc", .str "2.0"), ("id", pyOrJ idJ (.str "notif")),
       ("result", .obj [("ok", .bool true)])]), st)
  else if method = "tools/list" ∨ method = "tools.list" ∨ method = "list_tools" ∨
      method = "tools.index" then
    .ok (successR isNotif idJ (.obj [("tools", .arr (visibleTools ctx))]), st)
  else if method = "tools/call" then handleToolsCall ctx payload isNotif idJ st
  else .ok (errorR isNotif idJ (-32601) ("Method not found: " ++ method) none, st)

/-- The is_notification test at src/app.py line 1142: no id key, jsonrpc
equal to "2.0", and a method key. -/
def isNotifOf (payload : J) : Bool :=
  !payload.hasKey "id" &&
    (match payload.lookup "jsonrpc" with | some (.str s) => s == "2.0" | _ => false) &&
    payload.hasKey "method"

/-- Embedding of _handle_single_rpc (src/app.py lines 1129-1286).  The
result is the optional JSON-RPC response and the updated mutable state, or
the uncaught exception that propagates to the endpoint. -/
def handleSingleRpc (ctx : Ctx) (publicTools : List String) (obj : J) (st : DState) :
    Except String (Option J × DState) :=
  match obj with
  | .obj _ =>
    let payload := obj
    let isNotif := isNotifOf payload
    let idJ := dictGet payload "id"
    match asLowerStr (pyOrJ (dictGet payload "method") (.str "")) with
    | .error e => .error e
    | .ok method =>
      match authGate ctx publicTools payload isNotif idJ method st with
      | .error e => .error e
      | .ok (some resp, st1) => .ok (resp, st1)
      | .ok (none, st1) => routeMethod ctx payload isNotif idJ method st1
  | _ => .ok (some (buildJsonrpcError .null (-32600) "Invalid Request" none), st)

/-- Embedding of _sync_protocol_header (src/app.py lines 1297-1302). -/
def syncProtocolHeader (st : DState) : DState :=
  match st.stateProto with
  | some n => if n ≠ "" then { st with mcpHeader := some n }
              else if st.mcpHeader.getD "" ≠ "" then st
              else { st with mcpHeader := some (latestSupportedProtocol SUPPORTED_MCP_VERSIONS) }
  | none =>
    if st.mcpHeader.getD "" ≠ "" then st
    else { st with mcpHeader := some (latestSupportedProtocol SUPPORTED_MCP_VERSIONS) }

/-- The batch loop of the rpc endpoint (src/app.py lines 1308-1314): one
entry at a time, header sync after each, notifications appended as no
entry; an uncaught exception aborts the whole request. -/
def runBatch (ctx : Ctx) (publicTools : List String) :
    List J → DState → Except (String × DState) (List J × DState)
  | [], st => .ok ([], st)
  | e :: rest, st =>
    match handleSingleRpc ctx publicTools e st with
    | .error msg => .error (msg, st)
    | .ok (r?, st1) =>
      let st2 := syncProtocolHeader st1
      match runBatch ctx publicTools rest st2 with
      | .error p => .error p
      | .ok (rs, stEnd) =>
        .ok ((match r? with | some r => r :: rs | none => rs), stEnd)

/-- An HTTP response of the rpc endpoint: status code, optional JSON body
(none models the bodiless Response a single notification gets) and the
headers the handler controls. -/
structure HttpResponse where
  statusCode : Nat
  body : Option J
  mcpHeader : String
  wwwAuth : Option String

/-- The dispatch-error envelope built by the except branch of rpc
(src/app.py lines 1334-1342). -/
def dispatchErrorBody (e : String) : J :=
  .obj [("jsonrpc", .str "2.0"), ("id", .null),
        ("error", .obj [("code", .num (-32098)),
                        ("message", .str ("RPC dispatch error: " ++ e))])]

/-- Embedding of the rpc endpoint (src/app.py lines 1289-1342).  parsed is
the outcome of await request.json(); a parse failure lands in the same
except branch as any uncaught handler exception. -/
def rpcEndpoint (ctx : Ctx) (parsed : Except String J) (cache0 : Cache) : HttpResponse :=
  let st0 : DState :=
    { mcpHeader := some (ctx.reqProtoHeader.getD MCP_PROTO_DEFAULT),
      wwwAuth := none, stateProto := none, statusCode := 200, cache := cache0 }
  match parsed with
  | .error e =>
    let st := syncProtocolHeader st0
    { statusCode := 200, body := some (dispatchErrorBody e),
      mcpHeader := st.mcpHeader.getD "", wwwAuth := st.wwwAuth }
  | .ok (.arr entries) =>
    match runBatch ctx PUBLIC_TOOLS entries st0 with
    | .error (msg, stE) =>
      let st := syncProtocolHeader stE
      { statusCode := 200, body := some (dispatchErrorBody msg),
        mcpHeader := st.mcpHeader.getD "", wwwAuth := st.wwwAuth }
    | .ok (responses, stEnd) =>
      if responses.isEmpty then
        { statusCode := 200, body := some (.arr []),
          mcpHeader := stEnd.mcpHeader.getD "", wwwAuth := stEnd.wwwAuth }
      else
        { statusCode := stEnd.statusCode, body := some (.arr responses),
          mcpHeader := stEnd.mcpHeader.getD "", wwwAuth := stEnd.wwwAuth }
  | .ok payload =>
    match handleSingleRpc ctx PUBLIC_TOOLS payload st0 with
    | .error msg =>
      let st := syncProtocolHeader st0
      { statusCode := 200, body := some (dispatchErrorBody msg),
        mcpHeader := st.mcpHeader.getD "", wwwAuth := st.wwwAuth }
    | .ok (r?, st1) =>
      let st := syncProtocolHeader st1
      match r? with
      | some r => { statusCode := st.statusCode, body := some r,
                    mcpHeader := st.mcpHeader.getD "", wwwAuth := st.wwwAuth }
      | none => { statusCode := 200, body := none,
                  mcpHeader := st.mcpHeader.getD "", wwwAuth := st.wwwAuth }

/-! Theorems.  Each claim of the specification review is settled below; the
helper lemmas come first. -/

lemma charListLe_refl (l : List Char) : charListLe l l = true := by
  induction l with
  | nil => rfl
  | cons a as ih => simp [charListLe, ih]

lemma pyStrLe_refl (s : String) : pyStrLe s s = true := charListLe_refl _

/-- Characterization of the reversed find? used by the negotiator over a
list sorted ascending: it returns the greatest element ≤ v, or none when
every element exceeds v. -/
lemma find_rev_char (v : String) (l : List String)
    (hs : l.Pairwise (fun a b => pyStrLe a b = true)) :
    (∀ w, l.reverse.find? (fun u => pyStrLe u v) = some w →
      w ∈ l ∧ pyStrLe w v = true ∧ ∀ u ∈ l, pyStrLe u v = true → pyStrLe u w = true) ∧
    (l.reverse.find? (fun u => pyStrLe u v) = none → ∀ u ∈ l, pyStrLe u v = false) := by
  induction l using List.reverseRecOn with
  | nil => simp
  | append_singleton l' b ih =>
    rw [List.pairwise_append] at hs
    obtain ⟨hp', _, hall⟩ := hs
    have ih' := ih hp'
    rw [List.reverse_append]
    simp only [List.reverse_singleton, List.singleton_append]
    by_cases hb : pyStrLe b v = true
    · have hfind : List.find? (fun u => pyStrLe u v) (b :: l'.reverse) = some b := by
        simp [List.find?, hb]
      constructor
      · intro w hw
        rw [hfind] at hw
        obtain rfl : b = w := by injection hw
        refine ⟨by simp, hb, ?_⟩
        intro u hu _
        rcases List.mem_append.mp hu with h1 | h2
        · exact hall u h1 b (by simp)
        · obtain rfl : u = b := by simpa using h2
          exact pyStrLe_refl _
      · intro hnone
        rw [hfind] at hnone
        exact absurd hnone (by simp)
    · have hfind : List.find? (fun u => pyStrLe u v) (b :: l'.reverse) =
          List.find? (fun u => pyStrLe u v) l'.reverse := by
        simp [List.find?, hb]
      rw [hfind]
      constructor
      · intro w hw
        obtain ⟨hmem, hle, hgr⟩ := ih'.1 w hw
        refine ⟨List.mem_append.mpr (Or.inl hmem), hle, ?_⟩
        intro u hu huv
        rcases List.mem_append.mp hu with h1 | h2
        · exact hgr u h1 huv
        · obtain rfl : u = b := by simpa using h2
          exact absurd huv hb
      · intro hnone u hu
        rcases List.mem_append.mp hu with h1 | h2
        · exact ih'.2 hnone u h1
        · obtain rfl : u = b := by simpa using h2
          exact eq_false_of_ne_true hb

/-- An initialize envelope with the given id and requested version. -/
def initPayload (idJ : J) (v : String) : J :=
  .obj [("jsonrpc", .str "2.0"), ("id", idJ), ("method", .str "initialize"),
        ("params", .obj [("protocolVersion", .str v)])]

lemma isoShape_ne_empty {v : String} (h : isoShape v = true) : v ≠ "" := by
  intro h2
  rw [h2] at h
  exact absurd h (by decide)

lemma valid_shape {v : String} (h : isValidIsoDate v = true) : isoShape v = true := by
  have h2 := h
  simp [isValidIsoDate] at h2
  exact h2.1

/-- Fixture: an open-mode context with an empty catalog, an empty resolver
environment and an upstream that always fails. -/
def ctxW : Ctx :=
  { sharedKey := "", authorization := none, xMcpKey := none, reqProtoHeader := none,
    tools := [], resolveEnv := ⟨[], "", [], fun _ _ => 0⟩,
    adsTool := fun _ _ c => (.error (.other "unavailable" none), c),
    nowIso := "2026-01-01T00:00:00" }

/-- Fixture: the state the rpc endpoint builds for a request without an
MCP-Protocol-Version header. -/
def stW : DState := ⟨some "2024-11-05", none, none, 200, []⟩

/-- C3: for every requested version v and supported list (ordered, newest
last), negotiation returns the greatest supported version lexicographically
at most v; with no requested version it returns the newest supported
version; and when no supported version qualifies the initialize call fails
with the Unsupported error carrying the supported-version list as data
(and, for completeness, the qualifying case returns the negotiated
result). -/
theorem c3_version_negotiation :
    (∀ (supported : List String) (v w : String),
        supported.Pairwise (fun a b => pyStrLe a b = true) →
        negotiateProtocolVersion supported (some v) = some w →
        w ∈ supported ∧ pyStrLe w v = true ∧
          ∀ u ∈ supported, pyStrLe u v = true → pyStrLe u w = true) ∧
    (∀ (supported : List String) (v : String),
        supported.Pairwise (fun a b => pyStrLe a b = true) →
        negotiateProtocolVersion supported (some v) = none →
        ∀ u ∈ supported, pyStrLe u v = false) ∧
    (∀ supported : List String,
        negotiateProtocolVersion supported none =
          some (latestSupportedProtocol supported)) ∧
    (∀ (ctx : Ctx) (st : DState) (idJ : J) (v : String),
        isValidIsoDate v = true → pyStrLe "2024-11-05" v = true →
        handleSingleRpc ctx PUBLIC_TOOLS (initPayload idJ v) st =
          .ok (some (.obj
            [("jsonrpc", .str "2.0"), ("id", idJ),
             ("result", .obj
               [("protocolVersion", .str "2024-11-05"),
                ("capabilities", .obj [("tools", .obj [("listChanged", .bool true)])]),
                ("serverInfo", .obj [("name", .str APP_NAME), ("version", .str APP_VER)]),
                ("tools", .arr (visibleTools ctx))])]),
            { st with mcpHeader := some "2024-11-05", stateProto := some "2024-11-05" })) ∧
    (∀ (ctx : Ctx) (st : DState) (idJ : J) (v : String),
        isValidIsoDate v = true → pyStrLe "2024-11-05" v = false →
        handleSingleRpc ctx PUBLIC_TOOLS (initPayload idJ v) st =
          .ok (some (buildJsonrpcError idJ (-32602) "Unsupported protocolVersion"
              (some (.obj [("supportedVersions", .arr [.str "2024-11-05"])]))),
            { st with mcpHeader := some "2024-11-05", stateProto := some "2024-11-05" })) := by
  refine ⟨?_, ?_, ?_, ?_, ?_⟩
  · intro supported v w hs h
    exact (find_rev_char v supported hs).1 w h
  · intro supported v hs h
    exact (find_rev_char v supported hs).2 h
  · intro supported
    rfl
  · intro ctx st idJ v hv hle
    have hne : v ≠ "" := isoShape_ne_empty (valid_shape hv)
    have hlow : pyLower "initialize" = "initialize" := rfl
    by_cases hk : ctx.sharedKey = "" <;>
    simp [handleSingleRpc, initPayload, isNotifOf, authGate, routeMethod, handleInitialize,
      initRequested, initRawProto,
      dictGet, J.lookup, List.lookup, J.hasKey, pyOrJ, J.truthy, asLowerStr, hlow,
      hk, hv, hne, negotiateProtocolVersion, SUPPORTED_MCP_VERSIONS, List.find?, hle,
      errorR, successR, latestSupportedProtocol]
  · intro ctx st idJ v hv hle
    have hne : v ≠ "" := isoShape_ne_empty (valid_shape hv)
    have hlow : pyLower "initialize" = "initialize" := rfl
    by_cases hk : ctx.sharedKey = "" <;>
    simp [handleSingleRpc, initPayload, isNotifOf, authGate, routeMethod, handleInitialize,
      initRequested, initRawProto,
      dictGet, J.lookup, List.lookup, J.hasKey, pyOrJ, J.truthy, asLowerStr, hlow,
      hk, hv, hne, negotiateProtocolVersion, SUPPORTED_MCP_VERSIONS, List.find?, hle,
      errorR, successR, latestSupportedProtocol]

/-- Witness for C3 at concrete inputs: a two-version supported list with a
mid-range request, the downgrade scenario of the repository tests, and the
too-old scenario. -/
theorem c3_witness :
    ("2024-10-01" ∈ ["2024-10-01", "2024-11-05"] ∧
      pyStrLe "2024-10-01" "2024-10-15" = true ∧
      ∀ u ∈ ["2024-10-01", "2024-11-05"],
        pyStrLe u "2024-10-15" = true → pyStrLe u "2024-10-01" = true) ∧
    handleSingleRpc ctxW PUBLIC_TOOLS (initPayload (.num 1) "2025-06-18") stW =
      .ok (some (.obj
        [("jsonrpc", .str "2.0"), ("id", .num 1),
         ("result", .obj
           [("protocolVersion", .str "2024-11-05"),
            ("capabilities", .obj [("tools", .obj [("listChanged", .bool true)])]),
            ("serverInfo", .obj [("name", .str APP_NAME), ("version", .str APP_VER)]),
            ("tools", .arr [])])]),
        { stW with mcpHeader := some "2024-11-05", stateProto := some "2024-11-05" }) ∧
    handleSingleRpc ctxW PUBLIC_TOOLS (initPayload (.num 2) "2023-01-01") stW =
      .ok (some (buildJsonrpcError (.num 2) (-32602) "Unsupported protocolVersion"
          (some (.obj [("supportedVersions", .arr [.str "2024-11-05"])]))),
        { stW with mcpHeader := some "2024-11-05", stateProto := some "2024-11-05" }) :=
  ⟨c3_version_negotiation.1 ["2024-10-01", "2024-11-05"] "2024-10-15" "2024-10-01"
      (by decide) rfl,
   c3_version_negotiation.2.2.2.1 ctxW stW (.num 1) "2025-06-18" (by decide) (by decide),
   c3_version_negotiation.2.2.2.2 ctxW stW (.num 2) "2023-01-01" (by decide) (by decide)⟩

lemma not_shape_not_valid {v : String} (h : isoShape v = false) :
    isValidIsoDate v = false := by
  rw [isValidIsoDate, h]
  rfl

/-- C7 (amended): for every NON-empty requested protocol-version string
that does not have the YYYY-MM-DD shape, initialize fails with the
InvalidFormat error (-32602, "Invalid protocolVersion format", supported
versions as data) and both the handler-recorded header and the final HTTP
response header carry the newest supported version.  The empty string,
although it does not match YYYY-MM-DD, is excluded: Python treats it as
falsy, so the code negotiates as if no version had been requested (see
c7_counterexample). -/
theorem c7_invalid_format (ctx : Ctx) (st : DState) (idJ : J) (v : String)
    (cache0 : Cache) (hne : v ≠ "") (hshape : isoShape v = false) :
    handleSingleRpc ctx PUBLIC_TOOLS (initPayload idJ v) st =
      .ok (some (buildJsonrpcError idJ (-32602) "Invalid protocolVersion format"
          (some (.obj [("supportedVersions", .arr [.str "2024-11-05"])]))),
        { st with mcpHeader := some "2024-11-05", stateProto := some "2024-11-05" }) ∧
    (rpcEndpoint ctx (.ok (initPayload idJ v)) cache0).mcpHeader = "2024-11-05" ∧
    (rpcEndpoint ctx (.ok (initPayload idJ v)) cache0).body =
      some (buildJsonrpcError idJ (-32602) "Invalid protocolVersion format"
        (some (.obj [("supportedVersions", .arr [.str "2024-11-05"])]))) := by
  have hv : isValidIsoDate v = false := not_shape_not_valid hshape
  have hlow : pyLower "initialize" = "initialize" := rfl
  have h1 : ∀ st' : DState, handleSingleRpc ctx PUBLIC_TOOLS (initPayload idJ v) st' =
      .ok (some (buildJsonrpcError idJ (-32602) "Invalid protocolVersion format"
          (some (.obj [("supportedVersions", .arr [.str "2024-11-05"])]))),
        { st' with mcpHeader := some "2024-11-05", stateProto := some "2024-11-05" }) := by
    intro st'
    by_cases hk : ctx.sharedKey = "" <;>
    simp [handleSingleRpc, initPayload, isNotifOf, authGate, routeMethod, handleInitialize,
      initRequested, initRawProto,
      dictGet, J.lookup, List.lookup, J.hasKey, pyOrJ, J.truthy, asLowerStr, hlow,
      hk, hv, hne, errorR, latestSupportedProtocol, SUPPORTED_MCP_VERSIONS]
  have h2 : ∀ st' : DState, _ := fun st' => by
    have h := h1 st'
    simp only [initPayload] at h
    exact h
  refine ⟨h1 st, ?_, ?_⟩ <;>
  simp [rpcEndpoint, initPayload, h2, syncProtocolHeader]

/-- The lowered method name of an envelope, as the dispatcher computes it
(empty for a missing or falsy method). -/
def methodOf (payload : J) : String :=
  match pyOrJ (dictGet payload "method") (.str "") with
  | .str s => pyLower s
  | _ => ""

/-- A value that is a string or falsy: (v or "") is then a string and
.lower() cannot raise. -/
def isStrOrFalsy (v : J) : Bool :=
  match v with | .str _ => true | v => !v.truthy

/-- A value that is a mapping or falsy: (v or the empty dict) is then a
dict and .get cannot raise. -/
def isObjOrFalsy (v : J) : Bool :=
  match v with | .obj _ => true | v => !v.truthy

lemma pyOrJ_str {v : J} (h : isStrOrFalsy v = true) :
    ∃ s, pyOrJ v (.str "") = .str s := by
  by_cases ht : v.truthy = true
  · cases v with
    | str s => exact ⟨s, by simp [pyOrJ, ht]⟩
    | null => exact absurd ht (by simp [J.truthy])
    | bool b => exact absurd (show (!(J.bool b).truthy) = true from h) (by simp [ht])
    | num n => exact absurd (show (!(J.num n).truthy) = true from h) (by simp [ht])
    | arr l => exact absurd (show (!(J.arr l).truthy) = true from h) (by simp [ht])
    | obj l => exact absurd (show (!(J.obj l).truthy) = true from h) (by simp [ht])
  · exact ⟨"", by simp [pyOrJ, ht]⟩

lemma pyOrJ_obj {v : J} (h : isObjOrFalsy v = true) :
    ∃ pfs, pyOrJ v (.obj []) = .obj pfs := by
  by_cases ht : v.truthy = true
  · cases v with
    | obj l => exact ⟨l, by simp [pyOrJ, ht]⟩
    | null => exact absurd ht (by simp [J.truthy])
    | bool b => exact absurd (show (!(J.bool b).truthy) = true from h) (by simp [ht])
    | num n => exact absurd (show (!(J.num n).truthy) = true from h) (by simp [ht])
    | arr l => exact absurd (show (!(J.arr l).truthy) = true from h) (by simp [ht])
    | str s => exact absurd (show (!(J.str s).truthy) = true from h) (by simp [ht])
  · exact ⟨[], by simp [pyOrJ, ht]⟩

lemma lookup_none_of_hasKey_false {fs : List (String × J)} {k : String}
    (h : (J.obj fs).hasKey k = false) : List.lookup k fs = none := by
  induction fs with
  | nil => rfl
  | cons p rest ih =>
    rw [J.hasKey, List.any_cons] at h
    rw [Bool.or_eq_false_iff] at h
    have hne : (k == p.1) = false := by
      rw [beq_eq_false_iff_ne] at *
      exact fun h2 => h.1 h2.symm
    rw [List.lookup, hne]
    exact ih (by rw [J.hasKey]; exact h.2)

lemma authGate_notif (ctx : Ctx) (pub : List String) (payload : J) (idJ : J)
    (method : String) (st : DState)
    (hp : ∃ pfs, pyOrJ (dictGet payload "params") (.obj []) = .obj pfs)
    (hn : isStrOrFalsy (dictGet (pyOrJ (dictGet payload "params") (.obj [])) "name") = true) :
    ∃ st1 g, authGate ctx pub payload true idJ method st = .ok (g, st1) ∧
      (g = none ∨ g = some none) := by
  obtain ⟨pfs, hpfs⟩ := hp
  unfold authGate
  by_cases hc : ctx.sharedKey ≠ "" ∧ method = "tools/call"
  · rw [if_pos hc]
    rw [hpfs] at hn
    obtain ⟨ns, hns⟩ := pyOrJ_str hn
    have hns2 : pyOrJ (((J.obj pfs).lookup "name").getD J.null) (J.str "") = J.str ns := hns
    simp only [hpfs, hns2, asLowerStr]
    by_cases h1 : pub.contains (pyLower ns) = true
    · rw [if_pos h1]; exact ⟨st, none, rfl, Or.inl rfl⟩
    · rw [if_neg h1]
      by_cases h2 : (bearerOk ctx || xhdrOk ctx) = true
      · rw [if_pos h2]; exact ⟨st, none, rfl, Or.inl rfl⟩
      · rw [if_neg h2]
        exact ⟨{ st with wwwAuth := some "Bearer realm=\x22mcp-google-ads\x22" },
          some none, by simp, Or.inr rfl⟩
  · rw [if_neg hc]; exact ⟨st, none, rfl, Or.inl rfl⟩

lemma handleInitialize_notif (ctx : Ctx) (payload : J) (idJ : J) (st : DState)
    (hp : ∃ pfs, pyOrJ (dictGet payload "params") (.obj []) = .obj pfs) :
    ∃ stOut, handleInitialize ctx payload true idJ st = .ok (none, stOut) := by
  obtain ⟨pfs, hpfs⟩ := hp
  unfold handleInitialize
  simp only [hpfs, errorR, successR, if_true]
  repeat' split
  all_goals exact ⟨_, rfl⟩

lemma handleToolsCall_notif (ctx : Ctx) (payload : J) (idJ : J) (st : DState)
    (hp : ∃ pfs, pyOrJ (dictGet payload "params") (.obj []) = .obj pfs) :
    ∃ r stOut, handleToolsCall ctx payload true idJ st = .ok (r, stOut) ∧
      (r = none ∨ ∃ dataJ, r = some (.obj
        [("jsonrpc", .str "2.0"), ("id", idJ),
         ("error", mcpErr "Google Ads API error" dataJ)])) := by
  obtain ⟨pfs, hpfs⟩ := hp
  unfold handleToolsCall
  simp only [hpfs, errorR, successR, if_true]
  repeat' split
  · exact ⟨none, _, rfl, Or.inl rfl⟩
  · exact ⟨none, _, rfl, Or.inl rfl⟩
  · exact ⟨none, _, rfl, Or.inl rfl⟩
  · exact ⟨_, _, rfl, Or.inr ⟨_, rfl⟩⟩

/-- C1 (amended): a notification (an envelope with no id key, jsonrpc
"2.0" and a method) produces no response object from _handle_single_rpc
for every method and every outcome, with exactly two exceptions forced by
the code: the methods initialized / notifications-initialized are always
acknowledged with an envelope whose id is the string "notif", and a
tools/call whose tool body raises a non-ValueError exception returns the
-32000 tool-failure envelope with a null id. -/
theorem c1_notification_semantics (ctx : Ctx) (pub : List String)
    (fs : List (String × J)) (st : DState)
    (hid : (J.obj fs).hasKey "id" = false)
    (hrpc : (J.obj fs).lookup "jsonrpc" = some (.str "2.0"))
    (hm : (J.obj fs).hasKey "method" = true)
    (hwfm : isStrOrFalsy (dictGet (J.obj fs) "method") = true)
    (hwfp : isObjOrFalsy (dictGet (J.obj fs) "params") = true)
    (hwfn : isStrOrFalsy (dictGet (pyOrJ (dictGet (J.obj fs) "params") (.obj [])) "name") = true) :
    ∃ r stOut, handleSingleRpc ctx pub (J.obj fs) st = .ok (r, stOut) ∧
      (r = none ∨
       ((methodOf (J.obj fs) = "initialized" ∨
           methodOf (J.obj fs) = "notifications/initialized") ∧
         r = some (.obj [("jsonrpc", .str "2.0"), ("id", .str "notif"),
                         ("result", .obj [("ok", .bool true)])])) ∨
       (methodOf (J.obj fs) = "tools/call" ∧
         ∃ dataJ, r = some (.obj [("jsonrpc", .str "2.0"), ("id", .null),
                    ("error", mcpErr "Google Ads API error" dataJ)]))) := by
  have hp : ∃ pfs, pyOrJ (dictGet (J.obj fs) "params") (.obj []) = .obj pfs :=
    pyOrJ_obj hwfp
  have hnotif : isNotifOf (J.obj fs) = true := by
    rw [isNotifOf, hid, hrpc, hm]
    rfl
  have hlook : List.lookup "id" fs = none := lookup_none_of_hasKey_false hid
  have hidJ : dictGet (J.obj fs) "id" = J.null := by
    rw [dictGet, J.lookup, hlook]
    rfl
  obtain ⟨ms, hms⟩ := pyOrJ_str hwfm
  have hmeth : asLowerStr (pyOrJ (dictGet (J.obj fs) "method") (.str "")) =
      .ok (pyLower ms) := by
    rw [hms]
    rfl
  have hmof : methodOf (J.obj fs) = pyLower ms := by rw [methodOf, hms]
  obtain ⟨st1, g, hgate, hg⟩ :=
    authGate_notif ctx pub (J.obj fs) J.null (pyLower ms) st hp hwfn
  unfold handleSingleRpc
  simp only [hnotif, hidJ, hmeth]
  rcases hg with rfl | rfl
  · simp only [hgate]
    unfold routeMethod
    by_cases hI : pyLower ms = "initialize"
    · rw [if_pos hI]
      obtain ⟨stOut, hout⟩ := handleInitialize_notif ctx (J.obj fs) J.null st1 hp
      exact ⟨none, stOut, hout, Or.inl rfl⟩
    · rw [if_neg hI]
      by_cases hA : pyLower ms = "initialized" ∨ pyLower ms = "notifications/initialized"
      · rw [if_pos hA]
        refine ⟨some (.obj [("jsonrpc", .str "2.0"), ("id", .str "notif"),
          ("result", .obj [("ok", .bool true)])]), st1, rfl,
          Or.inr (Or.inl ⟨?_, rfl⟩)⟩
        rw [hmof]
        exact hA
      · rw [if_neg hA]
        by_cases hL : pyLower ms = "tools/list" ∨ pyLower ms = "tools.list" ∨
            pyLower ms = "list_tools" ∨ pyLower ms = "tools.index"
        · rw [if_pos hL]
          exact ⟨none, st1, rfl, Or.inl rfl⟩
        · rw [if_neg hL]
          by_cases hT : pyLower ms = "tools/call"
          · rw [if_pos hT]
            obtain ⟨r, stOut, hout, hr⟩ := handleToolsCall_notif ctx (J.obj fs) J.null st1 hp
            refine ⟨r, stOut, hout, ?_⟩
            rcases hr with rfl | ⟨dataJ, rfl⟩
            · exact Or.inl rfl
            · exact Or.inr (Or.inr ⟨by rw [hmof]; exact hT, dataJ, rfl⟩)
          · rw [if_neg hT]
            exact ⟨none, st1, rfl, Or.inl rfl⟩
  · simp only [hgate]
    exact ⟨none, st1, rfl, Or.inl rfl⟩

/-- C1 counterexample: the notification envelope for method
notifications/initialized (no id key) receives a response body, refuting
the claim that a notification never produces one. -/
theorem c1_counterexample :
    isNotifOf (J.obj [("jsonrpc", .str "2.0"),
      ("method", .str "notifications/initialized")]) = true ∧
    handleSingleRpc ctxW PUBLIC_TOOLS
      (J.obj [("jsonrpc", .str "2.0"), ("method", .str "notifications/initialized")])
      stW =
      .ok (some (.obj [("jsonrpc", .str "2.0"), ("id", .str "notif"),
        ("result", .obj [("ok", .bool true)])]), stW) :=
  ⟨rfl, rfl⟩

/-- Witness for C1 at a concrete notification: a tools/list notification
produces no response object. -/
theorem c1_witness :
    ∃ r stOut, handleSingleRpc ctxW PUBLIC_TOOLS
        (J.obj [("jsonrpc", .str "2.0"), ("method", .str "tools/list")]) stW =
        .ok (r, stOut) ∧
      (r = none ∨
       ((methodOf (J.obj [("jsonrpc", .str "2.0"), ("method", .str "tools/list")]) =
           "initialized" ∨
         methodOf (J.obj [("jsonrpc", .str "2.0"), ("method", .str "tools/list")]) =
           "notifications/initialized") ∧
         r = some (.obj [("jsonrpc", .str "2.0"), ("id", .str "notif"),
                         ("result", .obj [("ok", .bool true)])])) ∨
       (methodOf (J.obj [("jsonrpc", .str "2.0"), ("method", .str "tools/list")]) =
           "tools/call" ∧
         ∃ dataJ, r = some (.obj [("jsonrpc", .str "2.0"), ("id", .null),
                    ("error", mcpErr "Google Ads API error" dataJ)]))) :=
  c1_notification_semantics ctxW PUBLIC_TOOLS
    [("jsonrpc", .str "2.0"), ("method", .str "tools/list")] stW rfl rfl rfl rfl rfl rfl

/-- A tools/call envelope with the given id, tool name and arguments. -/
def toolsCallPayload (idJ : J) (name : String) (args : J) : J :=
  .obj [("jsonrpc", .str "2.0"), ("id", idJ), ("method", .str "tools/call"),
        ("params", .obj [("name", .str name), ("arguments", args)])]

/-- Python (s or "") for a string s is s itself (both branches agree). -/
lemma pyOrJ_str_self (s : String) : pyOrJ (J.str s) (J.str "") = J.str s := by
  by_cases h : s = "" <;> simp [pyOrJ, J.truthy, h]


lemma hsr_toolsCall (ctx : Ctx) (pub : List String) (st : DState) (idJ : J)
    (name : String) (args : J) :
    handleSingleRpc ctx pub (toolsCallPayload idJ name args) st =
      match authGate ctx pub (toolsCallPayload idJ name args) false idJ "tools/call" st with
      | .error e => .error e
      | .ok (some resp, st1) => .ok (resp, st1)
      | .ok (none, st1) =>
        handleToolsCall ctx (toolsCallPayload idJ name args) false idJ st1 := by
  have hlowc : pyLower "tools/call" = "tools/call" := rfl
  unfold handleSingleRpc
  simp [toolsCallPayload, isNotifOf, dictGet, J.lookup, List.lookup, J.hasKey,
    asLowerStr, pyOrJ, J.truthy, routeMethod, hlowc]

lemma authGate_toolsCall_public (ctx : Ctx) (pub : List String) (st : DState)
    (isNotif : Bool) (idJ : J) (name : String) (args : J)
    (hpub : pub.contains (pyLower name) = true) :
    authGate ctx pub (toolsCallPayload idJ name args) isNotif idJ "tools/call" st =
      .ok (none, st) := by
  unfold authGate
  by_cases hk : ctx.sharedKey ≠ "" ∧ "tools/call" = "tools/call"
  · rw [if_pos hk]
    have h4 : pyOrJ (dictGet (toolsCallPayload idJ name args) "params") (.obj []) =
        J.obj [("name", J.str name), ("arguments", args)] := rfl
    simp only [toolsCallPayload] at h4
    simp only [toolsCallPayload, h4]
    have h5 : pyOrJ (((J.obj [("name", J.str name), ("arguments", args)]).lookup
        "name").getD J.null) (J.str "") = J.str name := pyOrJ_str_self name
    simp only [h5, asLowerStr, hpub, if_true]
  · rw [if_neg hk]

lemma authGate_toolsCall_creds (ctx : Ctx) (pub : List String) (st : DState)
    (isNotif : Bool) (idJ : J) (name : String) (args : J)
    (hc : (bearerOk ctx || xhdrOk ctx) = true) :
    authGate ctx pub (toolsCallPayload idJ name args) isNotif idJ "tools/call" st =
      .ok (none, st) := by
  unfold authGate
  by_cases hk : ctx.sharedKey ≠ "" ∧ "tools/call" = "tools/call"
  · rw [if_pos hk]
    have h4 : pyOrJ (dictGet (toolsCallPayload idJ name args) "params") (.obj []) =
        J.obj [("name", J.str name), ("arguments", args)] := rfl
    simp only [toolsCallPayload] at h4
    simp only [toolsCallPayload, h4]
    have h5 : pyOrJ (((J.obj [("name", J.str name), ("arguments", args)]).lookup
        "name").getD J.null) (J.str "") = J.str name := pyOrJ_str_self name
    simp only [h5, asLowerStr, hc]
    by_cases h1 : pub.contains (pyLower name) = true <;> simp [h1, hc]
  · rw [if_neg hk]

lemma authGate_toolsCall_reject (ctx : Ctx) (pub : List String) (st : DState)
    (idJ : J) (name : String) (args : J)
    (hk : ctx.sharedKey ≠ "")
    (hpub : pub.contains (pyLower name) = false)
    (hb : bearerOk ctx = false) (hx : xhdrOk ctx = false) :
    authGate ctx pub (toolsCallPayload idJ name args) false idJ "tools/call" st =
      .ok (some (some (buildJsonrpcError idJ (-32001) "Unauthorized" none)),
        { st with wwwAuth := some "Bearer realm=\x22mcp-google-ads\x22" }) := by
  unfold authGate
  rw [if_pos ⟨hk, rfl⟩]
  have h4 : pyOrJ (dictGet (toolsCallPayload idJ name args) "params") (.obj []) =
      J.obj [("name", J.str name), ("arguments", args)] := rfl
  simp only [toolsCallPayload] at h4
  simp only [toolsCallPayload, h4]
  have h5 : pyOrJ (((J.obj [("name", J.str name), ("arguments", args)]).lookup
      "name").getD J.null) (J.str "") = J.str name := pyOrJ_str_self name
  simp only [h5, asLowerStr, hpub, hb, hx]
  simp

lemma authGate_skip (ctx : Ctx) (pub : List String) (payload : J) (isNotif : Bool)
    (idJ : J) (method : String) (st : DState)
    (h : ctx.sharedKey = "" ∨ method ≠ "tools/call") :
    authGate ctx pub payload isNotif idJ method st = .ok (none, st) := by
  unfold authGate
  rw [if_neg]
  rintro ⟨h1, h2⟩
  rcases h with h | h
  · exact h1 h
  · exact h h2

/-- C6 (amended): with a shared secret configured, a tools/call of a public
tool, or one carrying the secret as a bearer Authorization value or as the
X-MCP-Key header (exact string equality), passes the gate; a tools/call of
a non-public tool without either credential receives the Unauthorized
error -32001 inside the envelope while the HTTP status stays 200; with no
secret configured everything passes.  Contrary to the claim, methods other
than tools/call are never rejected for missing credentials: the gate skips
them entirely (see c6_counterexample). -/
theorem c6_authorization :
    (∀ (ctx : Ctx) (pub : List String) (payload : J) (isNotif : Bool) (idJ : J)
        (method : String) (st : DState), ctx.sharedKey = "" →
        authGate ctx pub payload isNotif idJ method st = .ok (none, st)) ∧
    (∀ (ctx : Ctx) (pub : List String) (payload : J) (isNotif : Bool) (idJ : J)
        (method : String) (st : DState), method ≠ "tools/call" →
        authGate ctx pub payload isNotif idJ method st = .ok (none, st)) ∧
    (∀ (ctx : Ctx) (st : DState) (idJ : J) (name : String) (args : J),
        PUBLIC_TOOLS.contains (pyLower name) = true →
        handleSingleRpc ctx PUBLIC_TOOLS (toolsCallPayload idJ name args) st =
          handleToolsCall ctx (toolsCallPayload idJ name args) false idJ st) ∧
    (∀ (ctx : Ctx) (st : DState) (idJ : J) (name : String) (args : J),
        (bearerOk ctx || xhdrOk ctx) = true →
        handleSingleRpc ctx PUBLIC_TOOLS (toolsCallPayload idJ name args) st =
          handleToolsCall ctx (toolsCallPayload idJ name args) false idJ st) ∧
    (∀ (ctx : Ctx) (st : DState) (idJ : J) (name : String) (args : J),
        ctx.sharedKey ≠ "" → PUBLIC_TOOLS.contains (pyLower name) = false →
        bearerOk ctx = false → xhdrOk ctx = false →
        handleSingleRpc ctx PUBLIC_TOOLS (toolsCallPayload idJ name args) st =
          .ok (some (buildJsonrpcError idJ (-32001) "Unauthorized" none),
            { st with wwwAuth := some "Bearer realm=\x22mcp-google-ads\x22" })) ∧
    (∀ (ctx : Ctx) (cache0 : Cache) (idJ : J) (name : String) (args : J),
        ctx.sharedKey ≠ "" → PUBLIC_TOOLS.contains (pyLower name) = false →
        bearerOk ctx = false → xhdrOk ctx = false →
        (rpcEndpoint ctx (.ok (toolsCallPayload idJ name args)) cache0).statusCode =
          200 ∧
        (rpcEndpoint ctx (.ok (toolsCallPayload idJ name args)) cache0).body =
          some (buildJsonrpcError idJ (-32001) "Unauthorized" none)) := by
  refine ⟨?_, ?_, ?_, ?_, ?_, ?_⟩
  · intro ctx pub payload isNotif idJ method st hk
    exact authGate_skip ctx pub payload isNotif idJ method st (Or.inl hk)
  · intro ctx pub payload isNotif idJ method st hm
    exact authGate_skip ctx pub payload isNotif idJ method st (Or.inr hm)
  · intro ctx st idJ name args hpub
    rw [hsr_toolsCall, authGate_toolsCall_public ctx PUBLIC_TOOLS st false idJ name args hpub]
  · intro ctx st idJ name args hc
    rw [hsr_toolsCall, authGate_toolsCall_creds ctx PUBLIC_TOOLS st false idJ name args hc]
  · intro ctx st idJ name args hk hpub hb hx
    rw [hsr_toolsCall,
      authGate_toolsCall_reject ctx PUBLIC_TOOLS st idJ name args hk hpub hb hx]
  · intro ctx cache0 idJ name args hk hpub hb hx
    have h5 : ∀ st' : DState,
        handleSingleRpc ctx PUBLIC_TOOLS (toolsCallPayload idJ name args) st' =
          .ok (some (buildJsonrpcError idJ (-32001) "Unauthorized" none),
            { st' with wwwAuth := some "Bearer realm=\x22mcp-google-ads\x22" }) := by
      intro st'
      rw [hsr_toolsCall,
        authGate_toolsCall_reject ctx PUBLIC_TOOLS st' idJ name args hk hpub hb hx]
    simp only [toolsCallPayload] at h5
    constructor <;>
      simp only [rpcEndpoint, toolsCallPayload, h5, syncProtocolHeader] <;>
      try (by_cases hX : (ctx.reqProtoHeader.getD MCP_PROTO_DEFAULT) = "" <;> simp [hX])

/-- Fixture: ctxW with a shared secret configured and no credential
headers. -/
def ctxWK : Ctx := { ctxW with sharedKey := "s3cret" }

/-- C6 counterexample: with a shared secret configured and no credentials
at all, the non-tool-call method tools/list is served successfully,
refuting the claim that any non-tool-call method is authorized only if the
headers carry the secret. -/
theorem c6_counterexample :
    ctxWK.sharedKey ≠ "" ∧ ctxWK.authorization = none ∧ ctxWK.xMcpKey = none ∧
    handleSingleRpc ctxWK PUBLIC_TOOLS
      (J.obj [("jsonrpc", .str "2.0"), ("id", .num 2), ("method", .str "tools/list")])
      stW =
      .ok (some (.obj [("jsonrpc", .str "2.0"), ("id", .num 2),
        ("result", .obj [("tools", .arr [])])]), stW) :=
  ⟨by decide, rfl, rfl, rfl⟩

/-- Witness for C6: the unauthorized call, the public-tool call, and the
200 status at concrete inputs. -/
theorem c6_witness :
    (handleSingleRpc ctxWK PUBLIC_TOOLS
        (toolsCallPayload (.num 7) "secret_tool" (.obj [])) stW =
      .ok (some (buildJsonrpcError (.num 7) (-32001) "Unauthorized" none),
        { stW with wwwAuth := some "Bearer realm=\x22mcp-google-ads\x22" })) ∧
    (handleSingleRpc ctxWK PUBLIC_TOOLS
        (toolsCallPayload (.num 8) "ping" (.obj [])) stW =
      handleToolsCall ctxWK (toolsCallPayload (.num 8) "ping" (.obj [])) false
        (.num 8) stW) ∧
    (rpcEndpoint ctxWK (.ok (toolsCallPayload (.num 7) "secret_tool" (.obj [])))
        []).statusCode = 200 :=
  ⟨c6_authorization.2.2.2.2.1 ctxWK stW (.num 7) "secret_tool" (.obj [])
      (by decide) rfl rfl rfl,
   c6_authorization.2.2.1 ctxWK stW (.num 8) "ping" (.obj []) rfl,
   (c6_authorization.2.2.2.2.2 ctxWK [] (.num 7) "secret_tool" (.obj [])
      (by decide) rfl rfl rfl).1⟩

/-- C2 (amended): a POST body that is not valid JSON makes request.json()
raise, which lands in the endpoint's except branch: a single error
response with a null id and the module DispatchError code -32098 (not the
JSON-RPC ParseError -32700 the claim names), with HTTP status 200 and no
per-envelope handling (the response is the same for every context and
cache). -/
theorem c2_parse_error (ctx : Ctx) (e : String) (cache0 : Cache) :
    (rpcEndpoint ctx (.error e) cache0).statusCode = 200 ∧
    (rpcEndpoint ctx (.error e) cache0).body = some (dispatchErrorBody e) ∧
    dispatchErrorBody e = .obj [("jsonrpc", .str "2.0"), ("id", .null),
      ("error", .obj [("code", .num (-32098)),
        ("message", .str ("RPC dispatch error: " ++ e))])] :=
  ⟨rfl, rfl, rfl⟩

/-- C2 counterexample: for a concrete malformed body the single error
response carries code -32098, not the ParseError code -32700 the claim
requires. -/
theorem c2_counterexample :
    (rpcEndpoint ctxW (.error "Expecting value: line 1 column 1 (char 0)") []).body =
      some (.obj [("jsonrpc", .str "2.0"), ("id", .null),
        ("error", .obj [("code", .num (-32098)),
          ("message",
           .str "RPC dispatch error: Expecting value: line 1 column 1 (char 0)")])]) ∧
    ((-32098 : Int) ≠ -32700) :=
  ⟨rfl, by decide⟩

/-- C7 counterexample: the empty string does not match YYYY-MM-DD, yet an
initialize request carrying protocolVersion "" succeeds (Python treats ""
as falsy, so negotiation proceeds as if no version had been requested),
refuting the claim for that input. -/
theorem c7_counterexample :
    isoShape "" = false ∧
    handleSingleRpc ctxW PUBLIC_TOOLS (initPayload (.num 3) "") stW =
      .ok (some (.obj
        [("jsonrpc", .str "2.0"), ("id", .num 3),
         ("result", .obj
           [("protocolVersion", .str "2024-11-05"),
            ("capabilities", .obj [("tools", .obj [("listChanged", .bool true)])]),
            ("serverInfo", .obj [("name", .str APP_NAME), ("version", .str APP_VER)]),
            ("tools", .arr [])])]),
        { stW with mcpHeader := some "2024-11-05", stateProto := some "2024-11-05" }) :=
  ⟨rfl, rfl⟩

/-- Witness for C7 at the malformed version of the repository test. -/
theorem c7_witness :
    handleSingleRpc ctxW PUBLIC_TOOLS (initPayload (.num 4) "not-a-date") stW =
      .ok (some (buildJsonrpcError (.num 4) (-32602) "Invalid protocolVersion format"
          (some (.obj [("supportedVersions", .arr [.str "2024-11-05"])]))),
        { stW with mcpHeader := some "2024-11-05", stateProto := some "2024-11-05" }) ∧
    (rpcEndpoint ctxW (.ok (initPayload (.num 4) "not-a-date")) []).mcpHeader =
      "2024-11-05" :=
  ⟨(c7_invalid_format ctxW stW (.num 4) "not-a-date" [] (by decide) (by decide)).1,
   (c7_invalid_format ctxW stW (.num 4) "not-a-date" [] (by decide) (by decide)).2.1⟩

lemma filter_dropWhile {α : Type} (p q : α → Bool) (l : List α)
    (h : ∀ a, q a = true → p a = false) :
    (l.dropWhile q).filter p = l.filter p := by
  induction l with
  | nil => rfl
  | cons a t ih =>
    by_cases hq : q a = true
    · rw [List.dropWhile_cons_of_pos hq, ih]
      rw [List.filter_cons_of_neg]
      simp [h a hq]
    · rw [List.dropWhile_cons_of_neg hq]

lemma pyStrip_filter (p : Char → Bool) (s : String)
    (h : ∀ c, isPyWs c = true → p c = false) :
    (pyStrip s).toList.filter p = s.toList.filter p := by
  show (((s.toList.dropWhile isPyWs).reverse.dropWhile
    isPyWs).reverse).asString.toList.filter p = _
  have hrt : ∀ l : List Char, (List.asString l).toList = l := fun _ => rfl
  rw [hrt, List.filter_reverse, filter_dropWhile p isPyWs _ h, List.filter_reverse,
    List.reverse_reverse, filter_dropWhile p isPyWs _ h]

lemma ws_not_digit : ∀ c : Char, isPyWs c = true → c.isDigit = false := by
  intro c h
  rw [isPyWs] at h
  simp only [Bool.or_eq_true, beq_iff_eq] at h
  rcases h with ((((h1 | h1) | h1) | h1) | h1) | h1 <;> subst h1 <;> decide

/-- C8: any input string whose characters, after ignoring separator
characters (any non-digit set counts as separators), are 8 to 20 digits is
returned by _resolve_customer_id as those digits unchanged, with the cache
untouched and for every static table, cache content and similarity
function (so no table is consulted). -/
theorem c8_digit_passthrough (env : ResolveEnv) (root : Option String)
    (cache : Cache) (s : String) (seps : List Char)
    (hsep : ∀ c ∈ seps, c.isDigit = false)
    (hkept : (s.toList.filter (fun c => decide (c ∉ seps))).all Char.isDigit = true)
    (h8 : 8 ≤ (s.toList.filter (fun c => decide (c ∉ seps))).length)
    (h20 : (s.toList.filter (fun c => decide (c ∉ seps))).length ≤ 20) :
    resolveCustomerId env (.str s) root cache =
      (some (s.toList.filter (fun c => decide (c ∉ seps))).asString, cache) := by
  have hfeq : s.toList.filter (fun c => decide (c ∉ seps)) =
      s.toList.filter Char.isDigit := by
    apply List.filter_congr
    intro c hcmem
    by_cases hc : c ∈ seps
    · simp [hc, hsep c hc]
    · have hmem : c ∈ s.toList.filter (fun d => decide (d ∉ seps)) :=
        List.mem_filter.mpr ⟨hcmem, by simp [hc]⟩
      rw [List.all_eq_true] at hkept
      have hd := hkept c hmem
      simp [hc, hd]
  rw [hfeq] at h8 h20 ⊢
  have hne : s ≠ "" := by
    intro h
    subst h
    simp at h8
  have ht : (!(J.str s).truthy) = false := by simp [J.truthy, hne]
  have hlen : ∀ l : List Char, (List.asString l).length = l.length := fun _ => rfl
  unfold resolveCustomerId
  rw [ht]
  simp only [Bool.false_eq_true, if_false, pyStr]
  rw [pyStrip_filter Char.isDigit s ws_not_digit, hlen]
  rw [if_pos ⟨h8, h20⟩]

/-- C9: _refresh_account_cache is all-or-nothing.  If reading the upstream
row set fails at any point (client construction, the search call, or
mid-iteration), the cache is returned unchanged and the function returns
normally (the embedding is total: the except clause swallows the error);
only after the entire row set is read successfully is the cache replaced
wholesale by the locally built mapping; a falsy root changes nothing. -/
theorem c9_refresh_atomic :
    (∀ (env : ResolveEnv) (root : Option String) (cache : Cache) (e : String),
        collectRows env.upstreamRows = .error e →
        refreshAccountCache env root cache = cache) ∧
    (∀ (env : ResolveEnv) (r : String) (cache : Cache) (rows : List AdsRow),
        r ≠ "" → collectRows env.upstreamRows = .ok rows →
        refreshAccountCache env (some r) cache = buildCacheLocal rows) ∧
    (∀ (env : ResolveEnv) (cache : Cache),
        refreshAccountCache env none cache = cache) := by
  refine ⟨?_, ?_, ?_⟩
  · intro env root cache e h
    cases root with
    | none => rfl
    | some r =>
      by_cases hr : r = ""
      · simp [refreshAccountCache, hr]
      · simp [refreshAccountCache, hr, h]
  · intro env r cache rows hr h
    simp [refreshAccountCache, hr, h]
  · intro env cache
    rfl

/-- The backoff durations of attempts i, i+1, ..., i+d-1. -/
def sleepList (jitter : Nat → Rat) (i : Nat) : Nat → List Rat
  | 0 => []
  | d + 1 => (min ((2 : Rat) ^ i) 20 + jitter i) :: sleepList jitter (i + 1) d

lemma sleepList_length (jitter : Nat → Rat) (i d : Nat) :
    (sleepList jitter i d).length = d := by
  induction d generalizing i with
  | zero => rfl
  | succ d ih => simp [sleepList, ih]

lemma adsCallGo_transient {α : Type} (outcomes : Nat → AdsOutcome α)
    (jitter : Nat → Rat) (attempts k : Nat) (v : α)
    (hk : outcomes k = .success v) (hka : k ≤ attempts) :
    ∀ (d i fuel : Nat), i + d = k → d < fuel →
      (∀ j, i ≤ j → j < k →
        ∃ st rid errs, outcomes j = .failure st rid errs ∧ st ∈ TRANSIENTS) →
      adsCallGo outcomes jitter attempts i fuel =
        (some (.ok v), sleepList jitter i d) := by
  intro d
  induction d with
  | zero =>
    intro i fuel hik hf _
    obtain ⟨f, rfl⟩ : ∃ f, fuel = f + 1 :=
      ⟨fuel - 1, by omega⟩
    obtain rfl : i = k := by omega
    rw [adsCallGo, hk]
    rfl
  | succ d ih =>
    intro i fuel hik hf htr
    obtain ⟨f, rfl⟩ : ∃ f, fuel = f + 1 := ⟨fuel - 1, by omega⟩
    obtain ⟨st, rid, errs, hout, hst⟩ := htr i (Nat.le_refl i) (by omega)
    rw [adsCallGo]
    simp only [hout]
    rw [if_pos ⟨hst, by omega⟩]
    rw [ih (i + 1) f (by omega) (by omega)
      (fun j h1 h2 => htr j (by omega) h2)]
    rfl

/-- C4: given transient-classified failures on attempts 1..k-1 and a
success on attempt k ≤ max_attempts, _ads_call returns the success after
exactly k-1 sleeps, where the sleep of attempt n lasts min(2^n, 20) plus
that attempt-s jitter, hence lies in [min(2^n,20), min(2^n,20)+1) whenever
every jitter is in [0,1); and a first-attempt failure whose status is not
in TRANSIENTS raises the details immediately, with no sleep and no
retry. -/
theorem c4_retry_policy :
    (∀ (α : Type) (outcomes : Nat → AdsOutcome α) (jitter : Nat → Rat)
        (attempts k : Nat) (v : α),
        1 ≤ k → k ≤ attempts →
        (∀ j, 1 ≤ j → j < k →
          ∃ st rid errs, outcomes j = .failure st rid errs ∧ st ∈ TRANSIENTS) →
        outcomes k = .success v →
        adsCall outcomes jitter attempts = (some (.ok v), sleepList jitter 1 (k - 1))) ∧
    (∀ (jitter : Nat → Rat) (i d : Nat), (sleepList jitter i d).length = d) ∧
    (∀ (jitter : Nat → Rat) (i d : Nat), (∀ n, 0 ≤ jitter n ∧ jitter n < 1) →
        ∀ x ∈ sleepList jitter i d,
          ∃ n, i ≤ n ∧ n < i + d ∧
            min ((2 : Rat) ^ n) 20 ≤ x ∧ x < min ((2 : Rat) ^ n) 20 + 1) ∧
    (∀ (α : Type) (outcomes : Nat → AdsOutcome α) (jitter : Nat → Rat)
        (st : String) (rid : Option String) (errs : List (String × String)),
        outcomes 1 = .failure st rid errs → st ∉ TRANSIENTS →
        adsCall outcomes jitter 5 =
          (some (.error (adsFailureDetails st rid errs)), [])) := by
  refine ⟨?_, sleepList_length, ?_, ?_⟩
  · intro α outcomes jitter attempts k v h1 hka htr hk
    unfold adsCall
    rw [adsCallGo_transient outcomes jitter attempts k v hk hka (k - 1) 1 attempts
      (by omega) (by omega) (fun j hj1 hj2 => htr j hj1 hj2)]
  · intro jitter i d hb
    induction d generalizing i with
    | zero => intro x hx; simp [sleepList] at hx
    | succ d ih =>
      intro x hx
      rw [sleepList] at hx
      rcases List.mem_cons.mp hx with rfl | hx2
      · exact ⟨i, Nat.le_refl i, by omega, by
          have := (hb i).1
          linarith, by
          have := (hb i).2
          linarith⟩
      · obtain ⟨n, hn1, hn2, hn3, hn4⟩ := ih (i + 1) x hx2
        exact ⟨n, by omega, by omega, hn3, hn4⟩
  · intro α outcomes jitter st rid errs h1 hst
    unfold adsCall
    rw [adsCallGo]
    simp only [h1]
    rw [if_neg]
    rintro ⟨h2, -⟩
    exact hst h2

/-- Fixture: two transient failures followed by success on attempt 3. -/
def outcomesW : Nat → AdsOutcome Nat := fun i =>
  if i < 3 then .failure "UNAVAILABLE" none [] else .success 42

/-- Witness for C4 at concrete inputs: success on attempt three after two
transient failures, and a PERMISSION_DENIED immediate failure. -/
theorem c4_witness :
    adsCall outcomesW (fun _ => mkRat 1 2) 5 =
      (some (.ok 42), sleepList (fun _ => mkRat 1 2) 1 2) ∧
    (sleepList (fun _ => mkRat 1 2) 1 2).length = 2 ∧
    (∃ n, 1 ≤ n ∧ n < 1 + 2 ∧
      min ((2 : Rat) ^ n) 20 ≤ min ((2 : Rat) ^ 1) 20 + mkRat 1 2 ∧
      min ((2 : Rat) ^ 1) 20 + mkRat 1 2 < min ((2 : Rat) ^ n) 20 + 1) ∧
    adsCall (fun _ => (.failure "PERMISSION_DENIED" none [] : AdsOutcome Nat))
        (fun _ => mkRat 1 2) 5 =
      (some (.error (adsFailureDetails "PERMISSION_DENIED" none [])), []) :=
  ⟨c4_retry_policy.1 Nat outcomesW (fun _ => mkRat 1 2) 5 3 42 (by decide) (by decide)
      (fun j _ h2 => ⟨"UNAVAILABLE", none, [], by simp [outcomesW, h2], by decide⟩) rfl,
   c4_retry_policy.2.1 (fun _ => mkRat 1 2) 1 2,
   c4_retry_policy.2.2.1 (fun _ => mkRat 1 2) 1 2
      (fun _ => ⟨show (0 : Rat) ≤ mkRat 1 2 by decide, show mkRat 1 2 < 1 by decide⟩)
      (min ((2 : Rat) ^ 1) 20 + mkRat 1 2)
      (by rw [sleepList]; exact List.mem_cons_self _ _),
   c4_retry_policy.2.2.2 Nat _ _ "PERMISSION_DENIED" none [] rfl (by decide)⟩

/-- Fixture: an upstream row stream that fails after one good row. -/
def envFail : ResolveEnv :=
  ⟨[], "", [.ok ⟨"Acme", "111"⟩, .error "UNAVAILABLE"], fun _ _ => 0⟩

/-- Fixture: an upstream row stream that succeeds with one row. -/
def envOkRows : ResolveEnv := ⟨[], "", [.ok ⟨"Acme", "12-3"⟩], fun _ _ => 0⟩

/-- Witness for C9: the failing stream leaves the cache unchanged; the
successful stream replaces it. -/
theorem c9_witness :
    refreshAccountCache envFail (some "999") [("acme", ⟨"555", "Acme"⟩)] =
      [("acme", ⟨"555", "Acme"⟩)] ∧
    refreshAccountCache envOkRows (some "999") [("old", ⟨"1", "Old"⟩)] =
      buildCacheLocal [⟨"Acme", "12-3"⟩] :=
  ⟨c9_refresh_atomic.1 envFail (some "999") _ "UNAVAILABLE" rfl,
   c9_refresh_atomic.2.1 envOkRows "999" _ [⟨"Acme", "12-3"⟩] (by decide) rfl⟩

/-- Witness for C8: a dashed ten-character id resolves to its digits with
every table populated and ignored. -/
theorem c8_witness :
    resolveCustomerId ⟨[("acme", "99999999")], "1234567890", [], fun _ _ => 1⟩
        (.str "123-456-78") (some "777") [("k", ⟨"55", "K"⟩)] =
      (some "12345678", [("k", ⟨"55", "K"⟩)]) :=
  c8_digit_passthrough ⟨[("acme", "99999999")], "1234567890", [], fun _ _ => 1⟩
    (some "777") [("k", ⟨"55", "K"⟩)] "123-456-78" ['-']
    (by decide) (by decide) (by decide) (by decide)

lemma getCloseMatch1_none (ratio : String → String → Rat) (cutoff : Rat)
    (word : String) (cands : List String)
    (h : ∀ c ∈ cands, ratio c word < cutoff) :
    getCloseMatch1 ratio cutoff word cands = none := by
  unfold getCloseMatch1
  have hq : cands.filter (fun c => decide (cutoff ≤ ratio c word)) = [] := by
    rw [List.filter_eq_nil]
    intro c hc
    simp [not_le.mpr (h c hc)]
  rw [hq]
  rfl

lemma foldl_best_mem (ratio : String → String → Rat) (word : String) :
    ∀ (l : List String) (acc : Option String) (b : String),
      l.foldl (fun best c =>
        match best with
        | none => some c
        | some a =>
          if ratio a word < ratio c word ∨
              (ratio a word = ratio c word ∧ pyStrLt a c = true) then some c
          else some a) acc = some b →
      acc = some b ∨ b ∈ l := by
  intro l
  induction l with
  | nil => intro acc b h; exact Or.inl h
  | cons c t ih =>
    intro acc b h
    rw [List.foldl_cons] at h
    rcases ih _ b h with h2 | h2
    · match acc, h2 with
      | none, h2 =>
        exact Or.inr (List.mem_cons.mpr (Or.inl (by injection h2 with h3; exact h3.symm)))
      | some a, h2 =>
        have h3 : (if ratio a word < ratio c word ∨
            (ratio a word = ratio c word ∧ pyStrLt a c = true) then some c
          else some a) = some b := h2
        by_cases hc : ratio a word < ratio c word ∨
            (ratio a word = ratio c word ∧ pyStrLt a c = true)
        · rw [if_pos hc] at h3
          exact Or.inr (List.mem_cons.mpr (Or.inl (by injection h3 with h4; exact h4.symm)))
        · rw [if_neg hc] at h3
          exact Or.inl h3
    · exact Or.inr (List.mem_cons_of_mem c h2)

lemma getCloseMatch1_some (ratio : String → String → Rat) (cutoff : Rat)
    (word : String) (cands : List String) (m : String)
    (h : getCloseMatch1 ratio cutoff word cands = some m) :
    m ∈ cands ∧ cutoff ≤ ratio m word := by
  unfold getCloseMatch1 at h
  rcases foldl_best_mem ratio word _ none m h with h2 | h2
  · exact absurd h2 (by simp)
  · rw [List.mem_filter] at h2
    exact ⟨h2.1, by simpa using h2.2⟩

lemma resolveCustomerId_fuzzy (env : ResolveEnv) (s : String) (rootMcc : Option String)
    (cache : Cache) (cache1 : Cache)
    (hs : s ≠ "")
    (hdig : ¬(8 ≤ ((pyStrip s).toList.filter Char.isDigit).length ∧
              ((pyStrip s).toList.filter Char.isDigit).length ≤ 20))
    (hstat : env.staticLookup.lookup (normKey (pyStrip s)) = none)
    (hc1 : cache1 = (if cache.isEmpty ∧ pyOrStr rootMcc env.loginCustomerId ≠ "" then
        refreshAccountCache env (some (pyOrStr rootMcc env.loginCustomerId)) cache
      else cache))
    (hcm : cache1.lookup (normKey (pyStrip s)) = none) :
    resolveCustomerId env (.str s) rootMcc cache =
      (match getCloseMatch1 env.ratio (mkRat 4 5) (normKey (pyStrip s))
          ((env.staticLookup.map Prod.fst ++ cache1.map Prod.fst).eraseDups) with
       | some m => (pyOrOptStr (env.staticLookup.lookup m)
           ((cache1.lookup m).map CacheEntry.id), cache1)
       | none => (none, cache1)) := by
  have ht : (!(J.str s).truthy) = false := by simp [J.truthy, hs]
  unfold resolveCustomerId
  rw [ht]
  simp only [Bool.false_eq_true, if_false, pyStr]
  have hdig2 : ¬(8 ≤ (List.filter Char.isDigit (pyStrip s).toList).asString.length ∧
      (List.filter Char.isDigit (pyStrip s).toList).asString.length ≤ 20) := hdig
  rw [if_neg hdig2]
  simp only [hstat, ← hc1, hcm]

/-- C5 (amended): when the normalized input misses both the static alias
table and the (possibly just refreshed) account cache, the fuzzy fallback
returns None whenever every candidate scores below the 0.8 cutoff, and any
returned id comes from a candidate whose similarity reached 0.8 — but ties
at the top score are not rejected: get_close_matches keeps the greatest
(score, candidate) pair, so two candidates clearing the bar at the same
top score still yield a match (see c5_counterexample). -/
theorem c5_fuzzy_floor (env : ResolveEnv) (s : String) (rootMcc : Option String)
    (cache : Cache) (cache1 : Cache)
    (hs : s ≠ "")
    (hdig : ¬(8 ≤ ((pyStrip s).toList.filter Char.isDigit).length ∧
              ((pyStrip s).toList.filter Char.isDigit).length ≤ 20))
    (hstat : env.staticLookup.lookup (normKey (pyStrip s)) = none)
    (hc1 : cache1 = (if cache.isEmpty ∧ pyOrStr rootMcc env.loginCustomerId ≠ "" then
        refreshAccountCache env (some (pyOrStr rootMcc env.loginCustomerId)) cache
      else cache))
    (hcm : cache1.lookup (normKey (pyStrip s)) = none) :
    ((∀ c ∈ (env.staticLookup.map Prod.fst ++ cache1.map Prod.fst).eraseDups,
        env.ratio c (normKey (pyStrip s)) < mkRat 4 5) →
      resolveCustomerId env (.str s) rootMcc cache = (none, cache1)) ∧
    (∀ id, (resolveCustomerId env (.str s) rootMcc cache).1 = some id →
      ∃ c ∈ (env.staticLookup.map Prod.fst ++ cache1.map Prod.fst).eraseDups,
        mkRat 4 5 ≤ env.ratio c (normKey (pyStrip s))) := by
  have hred := resolveCustomerId_fuzzy env s rootMcc cache cache1 hs hdig hstat hc1 hcm
  constructor
  · intro hall
    rw [hred, getCloseMatch1_none _ _ _ _ hall]
  · intro id hid
    rw [hred] at hid
    cases hm : getCloseMatch1 env.ratio (mkRat 4 5) (normKey (pyStrip s))
        ((env.staticLookup.map Prod.fst ++ cache1.map Prod.fst).eraseDups) with
    | none =>
      simp only [hm] at hid
      exact absurd hid (by simp)
    | some m =>
      obtain ⟨hmem, hle⟩ := getCloseMatch1_some _ _ _ _ _ hm
      exact ⟨m, hmem, hle⟩

/-- Fixture for the C5 counterexample: two aliases tied at similarity
10/11 to the key abcde, as difflib scores abcde1 and abcde2 against
abcde. -/
def envC : ResolveEnv :=
  ⟨[("abcde1", "111"), ("abcde2", "222")], "", [],
   fun a b => if b = "abcde" ∧ (a = "abcde1" ∨ a = "abcde2") then mkRat 10 11 else 0⟩

/-- C5 counterexample: two distinct candidates both clear the 0.8 bar at
the same top score, yet the resolver returns the id of the tie-broken
winner instead of the None the claim requires. -/
theorem c5_counterexample :
    (resolveCustomerId envC (.str "abcde") none []).1 = some "222" ∧
    mkRat 4 5 ≤ envC.ratio "abcde1" "abcde" ∧
    mkRat 4 5 ≤ envC.ratio "abcde2" "abcde" ∧
    envC.ratio "abcde1" "abcde" = envC.ratio "abcde2" "abcde" ∧
    ("abcde1" : String) ≠ "abcde2" ∧
    normKey (pyStrip "abcde") = "abcde" ∧
    envC.staticLookup.map Prod.fst = ["abcde1", "abcde2"] :=
  ⟨rfl, by decide, by decide, rfl, by decide, rfl, rfl⟩

/-- Fixture for the C5 witness: one alias, similarity identically zero. -/
def envW5 : ResolveEnv := ⟨[("acme", "111")], "", [], fun _ _ => 0⟩

/-- Witness for C5: with every similarity below 0.8 the resolver returns
None. -/
theorem c5_witness :
    resolveCustomerId envW5 (.str "zzz") none [] = (none, []) :=
  (c5_fuzzy_floor envW5 "zzz" none [] [] (by decide) (by decide) rfl rfl rfl).1
    (by decide)

/-- C10: a tools/call of resolve_customer whose customer argument cannot
be resolved returns a success result with resolved_customer_id null, never
an error; by contrast _ensure_customer_id_arg raises ValueError for the
same unresolvable input, and a tool body raising ValueError surfaces as
the InvalidParams error -32602. -/
theorem c10_resolve_customer_null :
    (∀ (ctx : Ctx) (st : DState) (idJ : J) (c : String),
        (resolveCustomerId ctx.resolveEnv (.str c)
            (loginArg ctx (J.obj [("customer", .str c)])) st.cache).1 = none →
        handleSingleRpc ctx PUBLIC_TOOLS
          (toolsCallPayload idJ "resolve_customer" (.obj [("customer", .str c)])) st =
          .ok (some (.obj [("jsonrpc", .str "2.0"), ("id", idJ),
            ("result", mcpOkJson (.obj
              [("input", .str c), ("resolved_customer_id", .null)]))]),
            { st with cache := (resolveCustomerId ctx.resolveEnv (.str c)
                (loginArg ctx (J.obj [("customer", .str c)])) st.cache).2 })) ∧
    (∀ (env : ResolveEnv) (c : String) (root : Option String) (cache : Cache),
        c ≠ "" →
        (resolveCustomerId env (.str c) root cache).1 = none →
        ensureCustomerIdArg env (J.obj [("customer", .str c)]) root cache =
          (.error (.valueError ("Could not resolve client \x27" ++ c ++
            "\x27 to a Google Ads customer ID")),
           (resolveCustomerId env (.str c) root cache).2)) ∧
    (∀ (ctx : Ctx) (st : DState) (idJ argsJ : J) (m : String) (c2 : Cache),
        ctx.adsTool "fetch_metrics" (pyOrJ argsJ (.obj [])) st.cache =
          (.error (.valueError m), c2) →
        handleSingleRpc ctx PUBLIC_TOOLS
          (toolsCallPayload idJ "fetch_metrics" argsJ) st =
          .ok (some (buildJsonrpcError idJ (-32602) ("Invalid params: " ++ m) none),
            { st with cache := c2 })) := by
  refine ⟨?_, ?_, ?_⟩
  · intro ctx st idJ c hres
    rw [hsr_toolsCall, authGate_toolsCall_public ctx PUBLIC_TOOLS st false idJ
      "resolve_customer" (.obj [("customer", .str c)]) rfl]
    show handleToolsCall ctx (toolsCallPayload idJ "resolve_customer"
      (.obj [("customer", .str c)])) false idJ st = _
    unfold handleToolsCall
    have h4 : pyOrJ (dictGet (toolsCallPayload idJ "resolve_customer"
        (.obj [("customer", .str c)])) "params") (.obj []) =
        J.obj [("name", J.str "resolve_customer"),
               ("arguments", J.obj [("customer", J.str c)])] := rfl
    simp only [toolsCallPayload] at h4
    simp only [toolsCallPayload, h4]
    have h5 : ((J.obj [("name", J.str "resolve_customer"),
        ("arguments", J.obj [("customer", J.str c)])]).lookup "name").getD J.null =
        J.str "resolve_customer" := rfl
    have h6 : pyOrJ (((J.obj [("name", J.str "resolve_customer"),
        ("arguments", J.obj [("customer", J.str c)])]).lookup "arguments").getD J.null)
        (.obj []) = J.obj [("customer", J.str c)] := rfl
    have h7 : toolImpls ctx "resolve_customer" =
        some ((fun a ch => toolResolveCustomer ctx a ch), "Resolved customer") := rfl
    simp only [h5, h6, h7]
    unfold toolResolveCustomer
    have h8 : (J.obj [("customer", J.str c)]).lookup "customer" =
        some (J.str c) := rfl
    simp only [h8, hres, successR]
    rfl
  · intro env c root cache hc hres
    unfold ensureCustomerIdArg
    have h1 : (dictGet (J.obj [("customer", J.str c)]) "customer_id").truthy = false := rfl
    have h2 : pyOrJ (dictGet (J.obj [("customer", J.str c)]) "customer")
        (dictGet (J.obj [("customer", J.str c)]) "customer_name") = J.str c := by
      simp [dictGet, J.lookup, List.lookup, pyOrJ, J.truthy, hc]
    have hct : (J.str c).truthy = true := by simp [J.truthy, hc]
    have h3 : (J.str (pyStr (J.str c))) = J.str c := rfl
    simp only [h1, h2, hct, Bool.false_eq_true, if_false, if_true, h3, hres, pyStr]
  · intro ctx st idJ argsJ m c2 hcall
    rw [hsr_toolsCall, authGate_toolsCall_public ctx PUBLIC_TOOLS st false idJ
      "fetch_metrics" argsJ rfl]
    show handleToolsCall ctx (toolsCallPayload idJ "fetch_metrics" argsJ) false idJ st = _
    unfold handleToolsCall
    have h4 : pyOrJ (dictGet (toolsCallPayload idJ "fetch_metrics" argsJ) "params")
        (.obj []) = J.obj [("name", J.str "fetch_metrics"), ("arguments", argsJ)] := rfl
    simp only [toolsCallPayload] at h4
    simp only [toolsCallPayload, h4]
    have h5 : ((J.obj [("name", J.str "fetch_metrics"),
        ("arguments", argsJ)]).lookup "name").getD J.null = J.str "fetch_metrics" := rfl
    have h6 : ((J.obj [("name", J.str "fetch_metrics"),
        ("arguments", argsJ)]).lookup "arguments").getD J.null = argsJ := rfl
    have h7 : toolImpls ctx "fetch_metrics" =
        some (ctx.adsTool "fetch_metrics", "Metrics") := rfl
    simp only [h5, h6, h7, hcall, errorR]
    rfl

/-- Fixture: a context whose Google-Ads-backed tools raise ValueError. -/
def ctxErr : Ctx :=
  { ctxW with adsTool := fun _ _ ch => (.error (.valueError "bad field"), ch) }

/-- Witness for C10 at concrete inputs: unresolvable resolve_customer
succeeds with null; _ensure_customer_id_arg raises; a ValueError tool
becomes InvalidParams. -/
theorem c10_witness :
    handleSingleRpc ctxW PUBLIC_TOOLS
        (toolsCallPayload (.num 5) "resolve_customer"
          (.obj [("customer", .str "ghost client")])) stW =
      .ok (some (.obj [("jsonrpc", .str "2.0"), ("id", .num 5),
        ("result", mcpOkJson (.obj
          [("input", .str "ghost client"), ("resolved_customer_id", .null)]))]),
        stW) ∧
    ensureCustomerIdArg ⟨[], "", [], fun _ _ => 0⟩
        (J.obj [("customer", .str "ghost")]) none [] =
      (.error (.valueError
        "Could not resolve client \x27ghost\x27 to a Google Ads customer ID"), []) ∧
    handleSingleRpc ctxErr PUBLIC_TOOLS
        (toolsCallPayload (.num 6) "fetch_metrics" (.obj [])) stW =
      .ok (some (buildJsonrpcError (.num 6) (-32602) "Invalid params: bad field" none),
        stW) :=
  ⟨c10_resolve_customer_null.1 ctxW stW (.num 5) "ghost client" rfl,
   c10_resolve_customer_null.2.1 ⟨[], "", [], fun _ _ => 0⟩ "ghost" none []
     (by decide) rfl,
   c10_resolve_customer_null.2.2 ctxErr stW (.num 6) (.obj []) "bad field" [] rfl⟩
